import Mathlib

set_option maxRecDepth 8192

/-!
Verification of the LPS1-to-C compiler (`lps1_compiler_ast.py`) against its
natural-language specification.  The Python source is embedded shallowly:
the `Lexer`, the AST node classes, the recursive-descent `Parser`, the
`CodeGenerator` and the assembly performed by `main` are translated into
executable Lean definitions, and the spec's claims are settled as theorems
about those definitions.

Modelling conventions:
* Python strings are modelled as `String` / `List Char`; the Unicode-aware
  character classification methods `str.islower` / `str.isdigit` are
  modelled exactly, by the code-point range tables `pyLowerRanges` /
  `pyDigitRanges` enumerated from the Unicode database of CPython 3.11.
* The mutually recursive parser procedures take a fuel argument; the driver
  hands them `2 * length + 8` fuel, which is ample since every recursive
  call follows the consumption of at least one token.
* Raised exceptions become `Except` errors carrying the same structured
  data (offending character / token kind, line, column) as the Python
  exception messages.
-/

/-- Whitespace characters skipped by the lexer (`' '`, `'\t'`, `'\n'`),
mirroring `self.current_char in ' \t\n'`. -/
def isWs (c : Char) : Bool :=
  c = ' ' || c = '\t' || c = '\n'

/-- The fixed single-character operator/keyword set of the lexer,
mirroring `self.current_char in '=G+-*/%PIW{}#<'`. -/
def opChars : List Char :=
  ['=', 'G', '+', '-', '*', '/', '%', 'P', 'I', 'W', '\x7b', '\x7d', '#', '<']

/-- The code-point ranges (inclusive) of the characters for which
Python's Unicode-aware `str.islower()` returns `True` (the `Lowercase`
characters of the Unicode database of CPython 3.11, the runtime this
repository targets), generated by enumerating `chr(i).islower()` over
every code point.  ASCII `a`-`z` is the first range. -/
def pyLowerRanges : List (Nat × Nat) := [
  (97, 122), (170, 170), (181, 181), (186, 186), (223, 246), (248, 255), (257, 257), (259, 259),
  (261, 261), (263, 263), (265, 265), (267, 267), (269, 269), (271, 271), (273, 273), (275, 275),
  (277, 277), (279, 279), (281, 281), (283, 283), (285, 285), (287, 287), (289, 289), (291, 291),
  (293, 293), (295, 295), (297, 297), (299, 299), (301, 301), (303, 303), (305, 305), (307, 307),
  (309, 309), (311, 312), (314, 314), (316, 316), (318, 318), (320, 320), (322, 322), (324, 324),
  (326, 326), (328, 329), (331, 331), (333, 333), (335, 335), (337, 337), (339, 339), (341, 341),
  (343, 343), (345, 345), (347, 347), (349, 349), (351, 351), (353, 353), (355, 355), (357, 357),
  (359, 359), (361, 361), (363, 363), (365, 365), (367, 367), (369, 369), (371, 371), (373, 373),
  (375, 375), (378, 378), (380, 380), (382, 384), (387, 387), (389, 389), (392, 392), (396, 397),
  (402, 402), (405, 405), (409, 411), (414, 414), (417, 417), (419, 419), (421, 421), (424, 424),
  (426, 427), (429, 429), (432, 432), (436, 436), (438, 438), (441, 442), (445, 447), (454, 454),
  (457, 457), (460, 460), (462, 462), (464, 464), (466, 466), (468, 468), (470, 470), (472, 472),
  (474, 474), (476, 477), (479, 479), (481, 481), (483, 483), (485, 485), (487, 487), (489, 489),
  (491, 491), (493, 493), (495, 496), (499, 499), (501, 501), (505, 505), (507, 507), (509, 509),
  (511, 511), (513, 513), (515, 515), (517, 517), (519, 519), (521, 521), (523, 523), (525, 525),
  (527, 527), (529, 529), (531, 531), (533, 533), (535, 535), (537, 537), (539, 539), (541, 541),
  (543, 543), (545, 545), (547, 547), (549, 549), (551, 551), (553, 553), (555, 555), (557, 557),
  (559, 559), (561, 561), (563, 569), (572, 572), (575, 576), (578, 578), (583, 583), (585, 585),
  (587, 587), (589, 589), (591, 659), (661, 696), (704, 705), (736, 740), (837, 837), (881, 881),
  (883, 883), (887, 887), (890, 893), (912, 912), (940, 974), (976, 977), (981, 983), (985, 985),
  (987, 987), (989, 989), (991, 991), (993, 993), (995, 995), (997, 997), (999, 999),
  (1001, 1001), (1003, 1003), (1005, 1005), (1007, 1011), (1013, 1013), (1016, 1016),
  (1019, 1020), (1072, 1119), (1121, 1121), (1123, 1123), (1125, 1125), (1127, 1127),
  (1129, 1129), (1131, 1131), (1133, 1133), (1135, 1135), (1137, 1137), (1139, 1139),
  (1141, 1141), (1143, 1143), (1145, 1145), (1147, 1147), (1149, 1149), (1151, 1151),
  (1153, 1153), (1163, 1163), (1165, 1165), (1167, 1167), (1169, 1169), (1171, 1171),
  (1173, 1173), (1175, 1175), (1177, 1177), (1179, 1179), (1181, 1181), (1183, 1183),
  (1185, 1185), (1187, 1187), (1189, 1189), (1191, 1191), (1193, 1193), (1195, 1195),
  (1197, 1197), (1199, 1199), (1201, 1201), (1203, 1203), (1205, 1205), (1207, 1207),
  (1209, 1209), (1211, 1211), (1213, 1213), (1215, 1215), (1218, 1218), (1220, 1220),
  (1222, 1222), (1224, 1224), (1226, 1226), (1228, 1228), (1230, 1231), (1233, 1233),
  (1235, 1235), (1237, 1237), (1239, 1239), (1241, 1241), (1243, 1243), (1245, 1245),
  (1247, 1247), (1249, 1249), (1251, 1251), (1253, 1253), (1255, 1255), (1257, 1257),
  (1259, 1259), (1261, 1261), (1263, 1263), (1265, 1265), (1267, 1267), (1269, 1269),
  (1271, 1271), (1273, 1273), (1275, 1275), (1277, 1277), (1279, 1279), (1281, 1281),
  (1283, 1283), (1285, 1285), (1287, 1287), (1289, 1289), (1291, 1291), (1293, 1293),
  (1295, 1295), (1297, 1297), (1299, 1299), (1301, 1301), (1303, 1303), (1305, 1305),
  (1307, 1307), (1309, 1309), (1311, 1311), (1313, 1313), (1315, 1315), (1317, 1317),
  (1319, 1319), (1321, 1321), (1323, 1323), (1325, 1325), (1327, 1327), (1376, 1416),
  (4304, 4346), (4349, 4351), (5112, 5117), (7296, 7304), (7424, 7615), (7681, 7681),
  (7683, 7683), (7685, 7685), (7687, 7687), (7689, 7689), (7691, 7691), (7693, 7693),
  (7695, 7695), (7697, 7697), (7699, 7699), (7701, 7701), (7703, 7703), (7705, 7705),
  (7707, 7707), (7709, 7709), (7711, 7711), (7713, 7713), (7715, 7715), (7717, 7717),
  (7719, 7719), (7721, 7721), (7723, 7723), (7725, 7725), (7727, 7727), (7729, 7729),
  (7731, 7731), (7733, 7733), (7735, 7735), (7737, 7737), (7739, 7739), (7741, 7741),
  (7743, 7743), (7745, 7745), (7747, 7747), (7749, 7749), (7751, 7751), (7753, 7753),
  (7755, 7755), (7757, 7757), (7759, 7759), (7761, 7761), (7763, 7763), (7765, 7765),
  (7767, 7767), (7769, 7769), (7771, 7771), (7773, 7773), (7775, 7775), (7777, 7777),
  (7779, 7779), (7781, 7781), (7783, 7783), (7785, 7785), (7787, 7787), (7789, 7789),
  (7791, 7791), (7793, 7793), (7795, 7795), (7797, 7797), (7799, 7799), (7801, 7801),
  (7803, 7803), (7805, 7805), (7807, 7807), (7809, 7809), (7811, 7811), (7813, 7813),
  (7815, 7815), (7817, 7817), (7819, 7819), (7821, 7821), (7823, 7823), (7825, 7825),
  (7827, 7827), (7829, 7837), (7839, 7839), (7841, 7841), (7843, 7843), (7845, 7845),
  (7847, 7847), (7849, 7849), (7851, 7851), (7853, 7853), (7855, 7855), (7857, 7857),
  (7859, 7859), (7861, 7861), (7863, 7863), (7865, 7865), (7867, 7867), (7869, 7869),
  (7871, 7871), (7873, 7873), (7875, 7875), (7877, 7877), (7879, 7879), (7881, 7881),
  (7883, 7883), (7885, 7885), (7887, 7887), (7889, 7889), (7891, 7891), (7893, 7893),
  (7895, 7895), (7897, 7897), (7899, 7899), (7901, 7901), (7903, 7903), (7905, 7905),
  (7907, 7907), (7909, 7909), (7911, 7911), (7913, 7913), (7915, 7915), (7917, 7917),
  (7919, 7919), (7921, 7921), (7923, 7923), (7925, 7925), (7927, 7927), (7929, 7929),
  (7931, 7931), (7933, 7933), (7935, 7943), (7952, 7957), (7968, 7975), (7984, 7991),
  (8000, 8005), (8016, 8023), (8032, 8039), (8048, 8061), (8064, 8071), (8080, 8087),
  (8096, 8103), (8112, 8116), (8118, 8119), (8126, 8126), (8130, 8132), (8134, 8135),
  (8144, 8147), (8150, 8151), (8160, 8167), (8178, 8180), (8182, 8183), (8305, 8305),
  (8319, 8319), (8336, 8348), (8458, 8458), (8462, 8463), (8467, 8467), (8495, 8495),
  (8500, 8500), (8505, 8505), (8508, 8509), (8518, 8521), (8526, 8526), (8560, 8575),
  (8580, 8580), (9424, 9449), (11312, 11359), (11361, 11361), (11365, 11366), (11368, 11368),
  (11370, 11370), (11372, 11372), (11377, 11377), (11379, 11380), (11382, 11389), (11393, 11393),
  (11395, 11395), (11397, 11397), (11399, 11399), (11401, 11401), (11403, 11403), (11405, 11405),
  (11407, 11407), (11409, 11409), (11411, 11411), (11413, 11413), (11415, 11415), (11417, 11417),
  (11419, 11419), (11421, 11421), (11423, 11423), (11425, 11425), (11427, 11427), (11429, 11429),
  (11431, 11431), (11433, 11433), (11435, 11435), (11437, 11437), (11439, 11439), (11441, 11441),
  (11443, 11443), (11445, 11445), (11447, 11447), (11449, 11449), (11451, 11451), (11453, 11453),
  (11455, 11455), (11457, 11457), (11459, 11459), (11461, 11461), (11463, 11463), (11465, 11465),
  (11467, 11467), (11469, 11469), (11471, 11471), (11473, 11473), (11475, 11475), (11477, 11477),
  (11479, 11479), (11481, 11481), (11483, 11483), (11485, 11485), (11487, 11487), (11489, 11489),
  (11491, 11492), (11500, 11500), (11502, 11502), (11507, 11507), (11520, 11557), (11559, 11559),
  (11565, 11565), (42561, 42561), (42563, 42563), (42565, 42565), (42567, 42567), (42569, 42569),
  (42571, 42571), (42573, 42573), (42575, 42575), (42577, 42577), (42579, 42579), (42581, 42581),
  (42583, 42583), (42585, 42585), (42587, 42587), (42589, 42589), (42591, 42591), (42593, 42593),
  (42595, 42595), (42597, 42597), (42599, 42599), (42601, 42601), (42603, 42603), (42605, 42605),
  (42625, 42625), (42627, 42627), (42629, 42629), (42631, 42631), (42633, 42633), (42635, 42635),
  (42637, 42637), (42639, 42639), (42641, 42641), (42643, 42643), (42645, 42645), (42647, 42647),
  (42649, 42649), (42651, 42653), (42787, 42787), (42789, 42789), (42791, 42791), (42793, 42793),
  (42795, 42795), (42797, 42797), (42799, 42801), (42803, 42803), (42805, 42805), (42807, 42807),
  (42809, 42809), (42811, 42811), (42813, 42813), (42815, 42815), (42817, 42817), (42819, 42819),
  (42821, 42821), (42823, 42823), (42825, 42825), (42827, 42827), (42829, 42829), (42831, 42831),
  (42833, 42833), (42835, 42835), (42837, 42837), (42839, 42839), (42841, 42841), (42843, 42843),
  (42845, 42845), (42847, 42847), (42849, 42849), (42851, 42851), (42853, 42853), (42855, 42855),
  (42857, 42857), (42859, 42859), (42861, 42861), (42863, 42872), (42874, 42874), (42876, 42876),
  (42879, 42879), (42881, 42881), (42883, 42883), (42885, 42885), (42887, 42887), (42892, 42892),
  (42894, 42894), (42897, 42897), (42899, 42901), (42903, 42903), (42905, 42905), (42907, 42907),
  (42909, 42909), (42911, 42911), (42913, 42913), (42915, 42915), (42917, 42917), (42919, 42919),
  (42921, 42921), (42927, 42927), (42933, 42933), (42935, 42935), (42937, 42937), (42939, 42939),
  (42941, 42941), (42943, 42943), (42945, 42945), (42947, 42947), (42952, 42952), (42954, 42954),
  (42961, 42961), (42963, 42963), (42965, 42965), (42967, 42967), (42969, 42969), (42998, 42998),
  (43000, 43002), (43824, 43866), (43868, 43880), (43888, 43967), (64256, 64262), (64275, 64279),
  (65345, 65370), (66600, 66639), (66776, 66811), (66967, 66977), (66979, 66993), (66995, 67001),
  (67003, 67004), (67456, 67456), (67459, 67461), (67463, 67504), (67506, 67514), (68800, 68850),
  (71872, 71903), (93792, 93823), (119834, 119859), (119886, 119892), (119894, 119911),
  (119938, 119963), (119990, 119993), (119995, 119995), (119997, 120003), (120005, 120015),
  (120042, 120067), (120094, 120119), (120146, 120171), (120198, 120223), (120250, 120275),
  (120302, 120327), (120354, 120379), (120406, 120431), (120458, 120485), (120514, 120538),
  (120540, 120545), (120572, 120596), (120598, 120603), (120630, 120654), (120656, 120661),
  (120688, 120712), (120714, 120719), (120746, 120770), (120772, 120777), (120779, 120779),
  (122624, 122633), (122635, 122654), (125218, 125251)]

/-- Python's `str.islower()` on one character, as used at line 54 of the
source to classify `VARIABLE` tokens. -/
def pyIslower (c : Char) : Bool :=
  pyLowerRanges.any fun p => Nat.ble p.1 c.toNat && Nat.ble c.toNat p.2

/-- The code-point ranges (inclusive) of the characters for which
Python's Unicode-aware `str.isdigit()` returns `True` (Numeric_Type
`Digit` or `Decimal` in the Unicode database of CPython 3.11), generated
by enumerating `chr(i).isdigit()` over every code point.  ASCII `0`-`9`
is the first range. -/
def pyDigitRanges : List (Nat × Nat) := [
  (48, 57), (178, 179), (185, 185), (1632, 1641), (1776, 1785), (1984, 1993), (2406, 2415),
  (2534, 2543), (2662, 2671), (2790, 2799), (2918, 2927), (3046, 3055), (3174, 3183),
  (3302, 3311), (3430, 3439), (3558, 3567), (3664, 3673), (3792, 3801), (3872, 3881),
  (4160, 4169), (4240, 4249), (4969, 4977), (6112, 6121), (6160, 6169), (6470, 6479),
  (6608, 6618), (6784, 6793), (6800, 6809), (6992, 7001), (7088, 7097), (7232, 7241),
  (7248, 7257), (8304, 8304), (8308, 8313), (8320, 8329), (9312, 9320), (9332, 9340),
  (9352, 9360), (9450, 9450), (9461, 9469), (9471, 9471), (10102, 10110), (10112, 10120),
  (10122, 10130), (42528, 42537), (43216, 43225), (43264, 43273), (43472, 43481), (43504, 43513),
  (43600, 43609), (44016, 44025), (65296, 65305), (66720, 66729), (68160, 68163), (68912, 68921),
  (69216, 69224), (69714, 69722), (69734, 69743), (69872, 69881), (69942, 69951), (70096, 70105),
  (70384, 70393), (70736, 70745), (70864, 70873), (71248, 71257), (71360, 71369), (71472, 71481),
  (71904, 71913), (72016, 72025), (72784, 72793), (73040, 73049), (73120, 73129), (92768, 92777),
  (92864, 92873), (93008, 93017), (120782, 120831), (123200, 123209), (123632, 123641),
  (125264, 125273), (127232, 127242), (130032, 130041)]

/-- Python's `str.isdigit()` on one character, as used at line 59 of the
source to classify `NUMBER` tokens. -/
def pyIsdigit (c : Char) : Bool :=
  pyDigitRanges.any fun p => Nat.ble p.1 c.toNat && Nat.ble c.toNat p.2


/-- Token kinds.  Python uses strings: the operator characters name
themselves, plus `'VARIABLE'`, `'NUMBER'` and `'EOF'`. -/
inductive TType where
  | sym (c : Char)
  | varT
  | numT
  | eofT
deriving DecidableEq, Repr

/-- `Token` (lines 1-12 of the source): kind, optional one-character
value, line and column.  `value` is `none` exactly for `EOF` tokens. -/
structure Token where
  type : TType
  value : Option Char
  line : Nat
  column : Nat
deriving DecidableEq, Repr

/-- The lexical error raised at line 65 of the source: an unrecognized
character together with its position. -/
inductive LexError where
  | invalidChar (c : Char) (line column : Nat)
deriving DecidableEq, Repr

/-- `Lexer` state: the text (with carriage returns already removed by the
constructor), the cursor `pos`, and the `line`/`column` counters. -/
structure Lexer where
  text : List Char
  pos : Nat
  line : Nat
  column : Nat
deriving DecidableEq, Repr

/-- `Lexer.__init__`: stores `text.replace('\r', '')` and starts at
position 0, line 1, column 1. -/
def Lexer.init (input : String) : Lexer :=
  { text := input.data.filter (fun c => c != '\r'), pos := 0, line := 1, column := 1 }

/-- `self.current_char`: the character at `pos`, `none` past the end. -/
def Lexer.currentChar (lx : Lexer) : Option Char :=
  lx.text[lx.pos]?

theorem Lexer.currentChar_some_lt {lx : Lexer} {c : Char}
    (h : lx.currentChar = some c) : lx.pos < lx.text.length := by
  by_contra hn
  rw [Lexer.currentChar, List.getElem?_eq_none (by omega)] at h
  exact Option.noConfusion h

/-- `Lexer.advance` (lines 22-32): newline bumps the line counter and
resets the column to 0 before the unconditional `pos += 1; column += 1`. -/
def Lexer.advance (lx : Lexer) : Lexer :=
  let lc := if lx.currentChar = some '\n' then (lx.line + 1, 0) else (lx.line, lx.column)
  { lx with pos := lx.pos + 1, line := lc.1, column := lc.2 + 1 }

@[simp] theorem Lexer.advance_text (lx : Lexer) : lx.advance.text = lx.text := rfl

@[simp] theorem Lexer.advance_pos (lx : Lexer) : lx.advance.pos = lx.pos + 1 := rfl

/-- The loop body of `skip_whitespace`, structurally recursive on the
number of characters left (so that it reduces definitionally); the
wrapper below instantiates the fuel with the exact remaining length, and
`Lexer.skip_whitespace_eq` shows the pair satisfies the Python loop's
defining equation. -/
def Lexer.skip_whitespace_go : Nat → Lexer → Lexer
  | 0, lx => lx
  | f + 1, lx =>
    match lx.currentChar with
    | some c => if isWs c then lx.advance.skip_whitespace_go f else lx
    | none => lx

/-- `Lexer.skip_whitespace` (lines 34-37). -/
def Lexer.skip_whitespace (lx : Lexer) : Lexer :=
  lx.skip_whitespace_go (lx.text.length - lx.pos)

/-- `skip_whitespace` satisfies the defining equation of the Python
`while` loop at lines 36-37. -/
theorem Lexer.skip_whitespace_eq (lx : Lexer) :
    lx.skip_whitespace =
      match lx.currentChar with
      | some c => if isWs c then lx.advance.skip_whitespace else lx
      | none => lx := by
  rw [Lexer.skip_whitespace]
  match hc : lx.currentChar with
  | none =>
    cases hf : lx.text.length - lx.pos <;> simp [Lexer.skip_whitespace_go, hc]
  | some c =>
    by_cases hw : isWs c
    · have hlt := Lexer.currentChar_some_lt hc
      have hf : lx.text.length - lx.pos = (lx.advance.text.length - lx.advance.pos) + 1 := by
        simp only [Lexer.advance_text, Lexer.advance_pos]
        omega
      rw [hf]
      simp [Lexer.skip_whitespace_go, hc, hw, Lexer.skip_whitespace]
    · cases hf : lx.text.length - lx.pos <;> simp [Lexer.skip_whitespace_go, hc, hw]

/-- `Lexer.get_next_token` (lines 39-67).  The `while`/`continue` loop
first skips whitespace; the surviving character (if any) is classified as
an operator, a lowercase letter (Python's Unicode-aware `islower()`,
modelled by `pyIslower`), or a digit (Python's Unicode-aware `isdigit()`,
modelled by `pyIsdigit`), and anything else raises the lexical error with
the current position. -/
def Lexer.get_next_token (lx : Lexer) : Except LexError (Token × Lexer) :=
  let s := lx.skip_whitespace
  match s.currentChar with
  | none => .ok ({ type := .eofT, value := none, line := s.line, column := s.column }, s)
  | some c =>
    if c ∈ opChars then
      .ok ({ type := .sym c, value := some c, line := s.line, column := s.column }, s.advance)
    else if pyIslower c then
      .ok ({ type := .varT, value := some c, line := s.line, column := s.column }, s.advance)
    else if pyIsdigit c then
      .ok ({ type := .numT, value := some c, line := s.line, column := s.column }, s.advance)
    else
      .error (.invalidChar c s.line s.column)

/-- The one-character literal span of a token (`[]` for `EOF`). -/
def tokVal (t : Token) : List Char :=
  t.value.toList

/-- Repeated calls of `get_next_token` collecting the produced tokens,
stopping at the first `EOF` token; `none` means the fuel ran out. -/
def Lexer.tokens_from : Nat → Lexer → Option (Except LexError (List Token))
  | 0, _ => none
  | f + 1, lx =>
    match lx.get_next_token with
    | .error e => some (.error e)
    | .ok (t, lx') =>
      if t.type = .eofT then some (.ok [t])
      else
        match lx'.tokens_from f with
        | none => none
        | some (.error e) => some (.error e)
        | some (.ok ts) => some (.ok (t :: ts))

/-- Tokenize a whole input: enough fuel for one call per character plus
the final `EOF`. -/
def Lexer.tokenize (input : String) : Option (Except LexError (List Token)) :=
  let lx := Lexer.init input
  lx.tokens_from (lx.text.length + 1)

/-- Call `get_next_token` exactly `n` times, collecting all results. -/
def Lexer.call_repeat : Nat → Lexer → Except LexError (List Token × Lexer)
  | 0, lx => .ok ([], lx)
  | n + 1, lx =>
    match lx.get_next_token with
    | .error e => .error e
    | .ok (t, lx') =>
      match lx'.call_repeat n with
      | .error e => .error e
      | .ok (ts, lx'') => .ok (t :: ts, lx'')

/-- `ValueNode` (lines 171-191): wraps either a `VariableNode` (one
lowercase letter) or a `NumberNode` (the one-digit literal kept as its
character). -/
inductive ValueNode where
  | var (name : Char)
  | num (value : Char)
deriving DecidableEq, Repr

/-- `ComparisonNode` (lines 160-169): a `VariableNode` on the left, the
already-translated operator string (`"=="`, `"!="` or `"<"`), and a
`ValueNode` on the right. -/
structure ComparisonNode where
  left : Char
  operator : String
  right : ValueNode
deriving DecidableEq, Repr

/-- The command-level AST node classes (lines 81-158):
`AssignCommandNode`, `GetCommandNode`, `BinaryOperationNode` (operator
character `+ - * / %`), `PrintCommandNode`, `IfCommandNode`,
`WhileCommandNode`, `CompositeCommandNode`. -/
inductive CommandNode where
  | assign (var : Char) (value : ValueNode)
  | get (var : Char)
  | binop (operator : Char) (var : Char) (left right : ValueNode)
  | printC (value : ValueNode)
  | ifC (comparison : ComparisonNode) (command : CommandNode)
  | whileC (comparison : ComparisonNode) (command : CommandNode)
  | composite (commands : List CommandNode)
deriving Repr

/-- `ProgramNode` (lines 73-79): the ordered command list. -/
structure ProgramNode where
  commands : List CommandNode
deriving Repr

/-- `CodeGenerator` state (lines 383-396): emitted lines, the set of
declared variables, and the indentation level (an integer, starting
at 1).  The Python attribute `variables` is rendered as
`declared_variables` (the spec's name for it) because `variables` is a
reserved word in Lean 4; the Python `set` is modelled as a
duplicate-free list (`add_variable` inserts only when absent), whose
set of elements is read off with `List.toFinset`. -/
structure CodeGenerator where
  code : List String
  declared_variables : List Char
  indent_level : Int

/-- `CodeGenerator.__init__`. -/
def CodeGenerator.init : CodeGenerator :=
  { code := [], declared_variables := [], indent_level := 1 }

/-- `CodeGenerator.indent`: `'    ' * self.indent_level` (Python string
repetition yields `''` for a non-positive count, hence `toNat`). -/
def CodeGenerator.indent (cg : CodeGenerator) : String :=
  String.join (List.replicate cg.indent_level.toNat "    ")

/-- `CodeGenerator.emit`: append one line. -/
def CodeGenerator.emit (cg : CodeGenerator) (line : String) : CodeGenerator :=
  { cg with code := cg.code ++ [line] }

/-- `CodeGenerator.add_variable`: record a variable name in the set
(`set.add` is a no-op when the name is already present). -/
def CodeGenerator.add_variable (cg : CodeGenerator) (v : Char) : CodeGenerator :=
  if v ∈ cg.declared_variables then cg
  else { cg with declared_variables := v :: cg.declared_variables }

/-- `ValueNode.generate_code`: a `VariableNode` registers itself and
returns its name (lines 178-184); a `NumberNode` returns its literal
(lines 186-191). -/
def ValueNode.generate_code : ValueNode → CodeGenerator → String × CodeGenerator
  | .var n, cg => (String.mk [n], cg.add_variable n)
  | .num d, cg => (String.mk [d], cg)

/-- `ComparisonNode.generate_code` (lines 166-169): generate both sides
(registering the left variable) and return `'left op right'`. -/
def ComparisonNode.generate_code (c : ComparisonNode) (cg : CodeGenerator) :
    String × CodeGenerator :=
  let cg1 := cg.add_variable c.left
  let (rc, cg2) := c.right.generate_code cg1
  (String.mk [c.left] ++ " " ++ c.operator ++ " " ++ rc, cg2)

mutual

/-- `generate_code` of the command node classes (lines 81-158), one match
arm per class, in source order. -/
def CommandNode.generate_code : CommandNode → CodeGenerator → CodeGenerator
  | .assign v val, cg =>
    let cg1 := cg.add_variable v
    let (vc, cg2) := val.generate_code cg1
    cg2.emit (cg2.indent ++ String.mk [v] ++ " = " ++ vc ++ ";")
  | .get v, cg =>
    let cg1 := cg.add_variable v
    let cg2 := cg1.emit (cg1.indent ++ "\x7b gets(str);")
    let cg3 := cg2.emit (cg2.indent ++ "sscanf(str, \"%d\", &" ++ String.mk [v] ++ ");")
    cg3.emit (cg3.indent ++ "\x7d")
  | .binop op v l r, cg =>
    let cg1 := cg.add_variable v
    let (lc, cg2) := l.generate_code cg1
    let (rc, cg3) := r.generate_code cg2
    cg3.emit (cg3.indent ++ String.mk [v] ++ " = " ++ lc ++ " " ++ String.mk [op] ++ " " ++ rc ++ ";")
  | .printC val, cg =>
    let (vc, cg1) := val.generate_code cg
    cg1.emit (cg1.indent ++ "printf(\"%d\\n\", " ++ vc ++ ");")
  | .ifC cmp body, cg =>
    let (cc, cg1) := cmp.generate_code cg
    let cg2 := cg1.emit (cg1.indent ++ "if ( " ++ cc ++ " ) \x7b")
    let cg3 := { cg2 with indent_level := cg2.indent_level + 1 }
    let cg4 := body.generate_code cg3
    let cg5 := { cg4 with indent_level := cg4.indent_level - 1 }
    cg5.emit (cg5.indent ++ "\x7d")
  | .whileC cmp body, cg =>
    let (cc, cg1) := cmp.generate_code cg
    let cg2 := cg1.emit (cg1.indent ++ "while ( " ++ cc ++ " ) \x7b")
    let cg3 := { cg2 with indent_level := cg2.indent_level + 1 }
    let cg4 := body.generate_code cg3
    let cg5 := { cg4 with indent_level := cg4.indent_level - 1 }
    cg5.emit (cg5.indent ++ "\x7d")
  | .composite cs, cg =>
    let cg1 := cg.emit (cg.indent ++ "\x7b")
    let cg2 := { cg1 with indent_level := cg1.indent_level + 1 }
    let cg3 := CommandNode.generate_list cs cg2
    let cg4 := { cg3 with indent_level := cg3.indent_level - 1 }
    cg4.emit (cg4.indent ++ "\x7d")

/-- The `for cmd in self.commands` loops of `ProgramNode.generate_code`
and `CompositeCommandNode.generate_code`. -/
def CommandNode.generate_list : List CommandNode → CodeGenerator → CodeGenerator
  | [], cg => cg
  | c :: cs, cg => CommandNode.generate_list cs (c.generate_code cg)

end

/-- `ProgramNode.generate_code` (lines 77-79). -/
def ProgramNode.generate_code (p : ProgramNode) (cg : CodeGenerator) : CodeGenerator :=
  CommandNode.generate_list p.commands cg

/-- The exceptions raised by the parser (and the lexical error it lets
through), one constructor per `raise` site, each carrying the same data
as the Python message.  `outOfFuel` is an embedding artifact of the fuel
parameter and is never produced for the inputs considered here. -/
inductive PError where
  | lexical (c : Char) (line column : Nat)
  | unexpectedToken (found : TType) (line column : Nat) (expected : TType)
  | varExpectedAfter (after : Char) (found : TType) (line column : Nat)
  | unknownCommand (found : TType) (line column : Nat)
  | varExpectedInComparison (found : TType) (line column : Nat)
  | invalidOperator (found : TType) (line column : Nat)
  | invalidValue (found : TType) (line column : Nat)
  | varExpected (found : TType) (line column : Nat)
  | outOfFuel
deriving DecidableEq, Repr

/-- `Parser` state (lines 193-196): the lexer and the current token. -/
structure Parser where
  lexer : Lexer
  token : Token
deriving Repr

/-- Pull the next token from the lexer, converting a lexical error. -/
def Parser.pull (lx : Lexer) : Except PError Parser :=
  match lx.get_next_token with
  | .error (.invalidChar c l k) => .error (.lexical c l k)
  | .ok (t, lx') => .ok { lexer := lx', token := t }

/-- `Parser.__init__`: fetch the first token. -/
def Parser.start (lx : Lexer) : Except PError Parser :=
  Parser.pull lx

/-- `Parser.eat` (lines 198-202). -/
def Parser.eat (p : Parser) (tt : TType) : Except PError Parser :=
  if p.token.type = tt then Parser.pull p.lexer
  else .error (.unexpectedToken p.token.type p.token.line p.token.column tt)

/-- `Parser.variable` (lines 377-381): check the current token is a
`VARIABLE` and build the `VariableNode` from its value, without eating.
(Lexer-produced `VARIABLE` tokens always carry their letter, so the
`getD` default is never used.) -/
def Parser.variable_node (p : Parser) : Except PError Char :=
  if p.token.type = .varT then .ok (p.token.value.getD ' ')
  else .error (.varExpected p.token.type p.token.line p.token.column)

/-- `Parser.value` (lines 364-375). -/
def Parser.value (p : Parser) : Except PError (ValueNode × Parser) :=
  if p.token.type = .varT then do
    let v ← p.variable_node
    let p1 ← p.eat .varT
    .ok (.var v, p1)
  else if p.token.type = .numT then do
    let d := p.token.value.getD ' '
    let p1 ← p.eat .numT
    .ok (.num d, p1)
  else
    .error (.invalidValue p.token.type p.token.line p.token.column)

/-- `Parser.operator` (lines 351-362): `=` maps to `==`, `#` to `!=`,
`<` stays `<`. -/
def Parser.operator (p : Parser) : Except PError (String × Parser) :=
  if p.token.type = .sym '=' then do
    let p1 ← p.eat (.sym '=')
    .ok ("==", p1)
  else if p.token.type = .sym '<' then do
    let p1 ← p.eat (.sym '<')
    .ok ("<", p1)
  else if p.token.type = .sym '#' then do
    let p1 ← p.eat (.sym '#')
    .ok ("!=", p1)
  else
    .error (.invalidOperator p.token.type p.token.line p.token.column)

/-- `Parser.comparison` (lines 341-349). -/
def Parser.comparison (p : Parser) : Except PError (ComparisonNode × Parser) :=
  if p.token.type ≠ .varT then
    .error (.varExpectedInComparison p.token.type p.token.line p.token.column)
  else do
    let l ← p.variable_node
    let p1 ← p.eat .varT
    let (op, p2) ← p1.operator
    let (r, p3) ← p2.value
    .ok ({ left := l, operator := op, right := r }, p3)

/-- `Parser.assign_command` (lines 238-246). -/
def Parser.assign_command (p : Parser) : Except PError (CommandNode × Parser) := do
  let p1 ← p.eat (.sym '=')
  if p1.token.type ≠ .varT then
    .error (.varExpectedAfter '=' p1.token.type p1.token.line p1.token.column)
  else do
    let v ← p1.variable_node
    let p2 ← p1.eat .varT
    let (val, p3) ← p2.value
    .ok (.assign v val, p3)

/-- `Parser.get_command` (lines 248-255). -/
def Parser.get_command (p : Parser) : Except PError (CommandNode × Parser) := do
  let p1 ← p.eat (.sym 'G')
  if p1.token.type ≠ .varT then
    .error (.varExpectedAfter 'G' p1.token.type p1.token.line p1.token.column)
  else do
    let v ← p1.variable_node
    let p2 ← p1.eat .varT
    .ok (.get v, p2)

/-- The shared shape of `add_command`, `sub_command`, `mult_command`,
`div_command` and `mod_command` (lines 257-310), which differ only in the
leading operator character they eat and store. -/
def Parser.binop_command (opc : Char) (p : Parser) : Except PError (CommandNode × Parser) := do
  let p1 ← p.eat (.sym opc)
  if p1.token.type ≠ .varT then
    .error (.varExpectedAfter opc p1.token.type p1.token.line p1.token.column)
  else do
    let v ← p1.variable_node
    let p2 ← p1.eat .varT
    let (val1, p3) ← p2.value
    let (val2, p4) ← p3.value
    .ok (.binop opc v val1 val2, p4)

/-- `Parser.print_command` (lines 312-316). -/
def Parser.print_command (p : Parser) : Except PError (CommandNode × Parser) := do
  let p1 ← p.eat (.sym 'P')
  let (val, p2) ← p1.value
  .ok (.printC val, p2)

mutual

/-- `Parser.command` (lines 211-236): dispatch on the current token's
kind, in source order; an unmatched kind raises the unknown-command
error. -/
def Parser.command : Nat → Parser → Except PError (CommandNode × Parser)
  | 0, _ => .error .outOfFuel
  | f + 1, p =>
    if p.token.type = .sym '=' then p.assign_command
    else if p.token.type = .sym 'G' then p.get_command
    else if p.token.type = .sym '+' then p.binop_command '+'
    else if p.token.type = .sym '-' then p.binop_command '-'
    else if p.token.type = .sym '*' then p.binop_command '*'
    else if p.token.type = .sym '/' then p.binop_command '/'
    else if p.token.type = .sym '%' then p.binop_command '%'
    else if p.token.type = .sym 'P' then p.print_command
    else if p.token.type = .sym 'I' then Parser.if_command f p
    else if p.token.type = .sym 'W' then Parser.while_command f p
    else if p.token.type = .sym '\x7b' then Parser.composite_command f p
    else .error (.unknownCommand p.token.type p.token.line p.token.column)

/-- `Parser.if_command` (lines 318-323). -/
def Parser.if_command : Nat → Parser → Except PError (CommandNode × Parser)
  | 0, _ => .error .outOfFuel
  | f + 1, p => do
    let p1 ← p.eat (.sym 'I')
    let (cmp, p2) ← p1.comparison
    let (c, p3) ← Parser.command f p2
    .ok (.ifC cmp c, p3)

/-- `Parser.while_command` (lines 325-330). -/
def Parser.while_command : Nat → Parser → Except PError (CommandNode × Parser)
  | 0, _ => .error .outOfFuel
  | f + 1, p => do
    let p1 ← p.eat (.sym 'W')
    let (cmp, p2) ← p1.comparison
    let (c, p3) ← Parser.command f p2
    .ok (.whileC cmp c, p3)

/-- `Parser.composite_command` (lines 332-339). -/
def Parser.composite_command : Nat → Parser → Except PError (CommandNode × Parser)
  | 0, _ => .error .outOfFuel
  | f + 1, p => do
    let p1 ← p.eat (.sym '\x7b')
    let (cs, p2) ← Parser.composite_cmds f p1
    let p3 ← p2.eat (.sym '\x7d')
    .ok (.composite cs, p3)

/-- The `while self.token.type != '}'` collection loop inside
`composite_command`. -/
def Parser.composite_cmds : Nat → Parser → Except PError (List CommandNode × Parser)
  | 0, _ => .error .outOfFuel
  | f + 1, p =>
    if p.token.type = .sym '\x7d' then .ok ([], p)
    else do
      let (c, p1) ← Parser.command f p
      let (cs, p2) ← Parser.composite_cmds f p1
      .ok (c :: cs, p2)

/-- The `while self.token.type != 'EOF'` collection loop of
`Parser.program` (lines 204-209). -/
def Parser.program_cmds : Nat → Parser → Except PError (List CommandNode × Parser)
  | 0, _ => .error .outOfFuel
  | f + 1, p =>
    if p.token.type = .eofT then .ok ([], p)
    else do
      let (c, p1) ← Parser.command f p
      let (cs, p2) ← Parser.program_cmds f p1
      .ok (c :: cs, p2)

end

/-- Lex and parse a whole source text: `Parser(Lexer(input)).program()`.
The fuel bound `2 * length + 8` always suffices because each recursive
layer consumes at least one token. -/
def parseProgram (input : String) : Except PError ProgramNode := do
  let lx := Lexer.init input
  let p ← Parser.start lx
  let (cs, _) ← Parser.program_cmds (2 * input.length + 8) p
  .ok { commands := cs }

/-- Python's `sep.join(items)`. -/
def pyJoin (sep : String) : List String → String
  | [] => ""
  | [a] => a
  | a :: b :: rest => a ++ sep ++ pyJoin sep (b :: rest)

/-- The assembly of the final C file performed by `main`
(lines 431-449): fixed preamble, the declaration line built from
`', '.join(sorted(code_generator.variables))` (placeholder `int dummy;`
when that string is empty), the fixed scratch-buffer declaration, the
emitted statement lines, the unconditional `gets(str);`, the return
statement and the closing brace. -/
def mainOutput (cg : CodeGenerator) : List String :=
  let vs := pyJoin ", " ((List.insertionSort (· ≤ ·) cg.declared_variables).map (fun c => String.mk [c]))
  ["#include <stdio.h>", "int main() \x7b"]
    ++ (if vs ≠ "" then ["    int " ++ vs ++ ";"] else ["    int dummy;"])
    ++ ["    char str[512]; // auxiliar na leitura com G"]
    ++ cg.code
    ++ ["    gets(str);", "    return 0;", "\x7d"]

/-- The compilation pipeline of `main` without the file I/O: lex, parse,
generate on a fresh `CodeGenerator`, assemble. -/
def compileLPS1 (input : String) : Except PError (List String) := do
  let prog ← parseProgram input
  let cg := prog.generate_code CodeGenerator.init
  .ok (mainOutput cg)

/-- Spec-side definition (for the declaration-completeness claim): the
variables syntactically appearing in a `ValueNode`. -/
def ValueNode.varsOf : ValueNode → Finset Char
  | .var n => {n}
  | .num _ => ∅

/-- Spec-side: the variables appearing in a comparison (left operand and
right value). -/
def ComparisonNode.varsOf (c : ComparisonNode) : Finset Char :=
  insert c.left c.right.varsOf

mutual

/-- Spec-side: the distinct variable letters appearing anywhere in a
command — assignment target, arithmetic target or operand, `Get` target,
`Print` operand, or comparison operand. -/
def CommandNode.varsOf : CommandNode → Finset Char
  | .assign v val => insert v val.varsOf
  | .get v => {v}
  | .binop _ v l r => insert v (l.varsOf ∪ r.varsOf)
  | .printC val => val.varsOf
  | .ifC cmp body => cmp.varsOf ∪ body.varsOf
  | .whileC cmp body => cmp.varsOf ∪ body.varsOf
  | .composite cs => CommandNode.varsOfList cs

/-- Spec-side: the variables of a command sequence. -/
def CommandNode.varsOfList : List CommandNode → Finset Char
  | [] => ∅
  | c :: cs => c.varsOf ∪ CommandNode.varsOfList cs

end

/-- Spec-side: the variables appearing anywhere in a program's commands. -/
def ProgramNode.varsOf (p : ProgramNode) : Finset Char :=
  CommandNode.varsOfList p.commands

/-- `k` repetitions of the four-space indentation unit. -/
def indentStr (k : Nat) : String :=
  String.join (List.replicate k "    ")

/-- A line that consists of exactly `k` indentation units followed by
content that is nonempty and does not start with a space (so its
indentation depth is unambiguous). -/
def goodLine (k : Int) (l : String) : Prop :=
  ∃ r, l = indentStr k.toNat ++ r ∧ r ≠ "" ∧ r.data.head? ≠ some ' '

/-- Well-formedness of a value node over the language's documented
alphabet: variable names are ASCII lowercase letters, literals are ASCII
digits. -/
def ValueNode.wfb : ValueNode → Bool
  | .var n => n.isLower
  | .num d => d.isDigit

/-- Well-formedness of a comparison over the language's documented
alphabet. -/
def ComparisonNode.wfb (c : ComparisonNode) : Bool :=
  c.left.isLower && c.right.wfb &&
    (c.operator = "==" || c.operator = "!=" || c.operator = "<")

mutual

/-- Well-formedness of a command node over the language's documented
alphabet: all variable names are ASCII lowercase letters, literals are
ASCII digits, operators come from the fixed sets. -/
def CommandNode.wfb : CommandNode → Bool
  | .assign v val => v.isLower && val.wfb
  | .get v => v.isLower
  | .binop op v l r =>
    (['+', '-', '*', '/', '%'] : List Char).contains op && v.isLower && l.wfb && r.wfb
  | .printC val => val.wfb
  | .ifC cmp body => cmp.wfb && body.wfb
  | .whileC cmp body => cmp.wfb && body.wfb
  | .composite cs => CommandNode.wfbList cs

/-- Well-formedness of a command sequence. -/
def CommandNode.wfbList : List CommandNode → Bool
  | [] => true
  | c :: cs => c.wfb && CommandNode.wfbList cs

end

/-- The shape of the lines a single command contributes when generated
at the indentation level of `cg`: at least one line; every line sits at
some unambiguous indentation depth no shallower than `cg`'s level; and
the first and last contributed lines sit at exactly `cg`'s level. -/
def linesOk (cg : CodeGenerator) (ls : List String) : Prop :=
  ls ≠ [] ∧ (∀ l ∈ ls, ∃ k : Int, cg.indent_level ≤ k ∧ goodLine k l) ∧
  (∀ l, ls.head? = some l → goodLine cg.indent_level l) ∧
  (∀ l, ls.getLast? = some l → goodLine cg.indent_level l)

/-! ### Basic facts about the generator state -/

@[simp] theorem CodeGenerator.emit_code (cg : CodeGenerator) (l : String) :
    (cg.emit l).code = cg.code ++ [l] := rfl

@[simp] theorem CodeGenerator.emit_vars (cg : CodeGenerator) (l : String) :
    (cg.emit l).declared_variables = cg.declared_variables := rfl

@[simp] theorem CodeGenerator.emit_indent_level (cg : CodeGenerator) (l : String) :
    (cg.emit l).indent_level = cg.indent_level := rfl

@[simp] theorem CodeGenerator.add_variable_code (cg : CodeGenerator) (v : Char) :
    (cg.add_variable v).code = cg.code := by
  rw [CodeGenerator.add_variable]
  split <;> rfl

@[simp] theorem CodeGenerator.add_variable_indent_level (cg : CodeGenerator) (v : Char) :
    (cg.add_variable v).indent_level = cg.indent_level := by
  rw [CodeGenerator.add_variable]
  split <;> rfl

theorem CodeGenerator.indent_eq (cg : CodeGenerator) :
    cg.indent = indentStr cg.indent_level.toNat := rfl

@[simp] theorem CodeGenerator.add_variable_indent (cg : CodeGenerator) (v : Char) :
    (cg.add_variable v).indent = cg.indent := by
  rw [CodeGenerator.indent_eq, CodeGenerator.indent_eq, CodeGenerator.add_variable_indent_level]

@[simp] theorem CodeGenerator.emit_indent (cg : CodeGenerator) (l : String) :
    (cg.emit l).indent = cg.indent := rfl

theorem CodeGenerator.add_variable_toFinset (cg : CodeGenerator) (v : Char) :
    (cg.add_variable v).declared_variables.toFinset =
      insert v cg.declared_variables.toFinset := by
  rw [CodeGenerator.add_variable]
  split
  · rw [Finset.insert_eq_self.mpr (List.mem_toFinset.mpr (by assumption))]
  · rw [List.toFinset_cons]

/-! ### C4: code generated for a `Get` command -/

/-- C4, counterexample: code generation for the `Get` node with target
`a` (starting from a fresh generator) emits three lines, not two as the
claim states — `GetCommandNode.generate_code` wraps the read and the
parse in an extra pair of brace lines. -/
theorem get_two_lines_counterexample :
    (CommandNode.generate_code (.get 'a') CodeGenerator.init).code.length = 3 ∧
    ¬ (CommandNode.generate_code (.get 'a') CodeGenerator.init).code.length = 2 := by
  constructor
  · rfl
  · decide

/-- C4 (amended): for every `Get` command node, code generation emits
exactly three lines at the current indentation — an opening line
`{ gets(str);` that reads a line into the scratch buffer, a line
`sscanf(str, "%d", &v);` that parses an integer from the buffer into the
target variable, and a closing brace line. -/
theorem get_command_emits_three_lines (v : Char) (cg : CodeGenerator) :
    (CommandNode.generate_code (.get v) cg).code =
      cg.code ++ [cg.indent ++ "\x7b gets(str);",
                  cg.indent ++ "sscanf(str, \"%d\", &" ++ String.mk [v] ++ ");",
                  cg.indent ++ "\x7d"] := by
  simp [CommandNode.generate_code]

/-! ### C8: error position for `=1a` -/

/-- C8: parsing `=1a` fails with the variable-expected-after-`=` syntax
error (line 238-242 of the source) reporting line 1 and column 2, the
position at which the offending `NUMBER` token `1` starts. -/
theorem assign_number_error_position :
    parseProgram "=1a" = .error (.varExpectedAfter '=' .numT 1 2) := rfl

/-! ### C3: compiling an empty program -/

/-- C3: any source that parses to zero commands (in particular the empty
text and whitespace-only text, which do) compiles to the complete output
shell with the placeholder declaration `int dummy;` and no generated
statement lines from the program body. -/
theorem empty_program_output :
    (∀ input : String, parseProgram input = .ok { commands := [] } →
      compileLPS1 input = .ok
        ["#include <stdio.h>", "int main() \x7b", "    int dummy;",
         "    char str[512]; // auxiliar na leitura com G",
         "    gets(str);", "    return 0;", "\x7d"]) ∧
    parseProgram "" = .ok { commands := [] } ∧
    parseProgram " \t\n " = .ok { commands := [] } ∧
    (ProgramNode.generate_code { commands := [] } CodeGenerator.init).code = [] := by
  refine ⟨?_, rfl, rfl, rfl⟩
  intro input h
  simp only [compileLPS1, h, bind, Except.bind]
  rfl

/-- C3, witness: the empty source parses to zero commands and compiles
to the placeholder shell. -/
theorem empty_program_output_witness :
    parseProgram "" = .ok { commands := [] } ∧
    compileLPS1 "" = .ok
      ["#include <stdio.h>", "int main() \x7b", "    int dummy;",
       "    char str[512]; // auxiliar na leitura com G",
       "    gets(str);", "    return 0;", "\x7d"] :=
  ⟨rfl, empty_program_output.1 "" rfl⟩

/-! ### C2: the driver's assembly of the output -/

/-- C2, counterexample: for the source `P1` (which compiles successfully
and collects no variables) the declaration line is the placeholder
`int dummy;`, not a line listing the (empty) collected variable set
sorted and comma-separated, which would be `int ;`.  The claim as stated
therefore fails for programs that use no variables. -/
theorem driver_decl_line_counterexample :
    compileLPS1 "P1" = .ok
      ["#include <stdio.h>", "int main() \x7b", "    int dummy;",
       "    char str[512]; // auxiliar na leitura com G",
       "    printf(\"%d\\n\", 1);", "    gets(str);", "    return 0;", "\x7d"] ∧
    (parseProgram "P1").toOption.map
      (fun pr => (pr.generate_code CodeGenerator.init).declared_variables) = some [] ∧
    ¬ ("    int dummy;" : String) =
      "    int " ++ pyJoin ", "
        ((List.insertionSort (· ≤ ·) ([] : List Char)).map (fun c => String.mk [c])) ++ ";" := by
  refine ⟨rfl, rfl, ?_⟩
  decide

/-! ### C9: the nesting example -/

/-- C9, counterexample: parsing the spec's source text
`I a=0 { +b a 1 1 P b }` does not succeed: the `Add` production consumes
`+ b a 1` (target and exactly two operands), after which the second `1`
(line 1, column 16) matches no command production, so the parser raises
the unknown-command error there. -/
theorem nesting_parse_counterexample :
    parseProgram "I a=0 \x7b +b a 1 1 P b \x7d" =
      .error (.unknownCommand .numT 1 16) := by
  simp +decide [parseProgram, Parser.start, Parser.pull, Parser.program_cmds, Parser.command,
    Parser.if_command, Parser.while_command, Parser.composite_command, Parser.composite_cmds,
    Parser.assign_command, Parser.get_command, Parser.binop_command, Parser.print_command,
    Parser.comparison, Parser.operator, Parser.value, Parser.variable_node, Parser.eat,
    Lexer.get_next_token, Lexer.skip_whitespace, Lexer.skip_whitespace_go, Lexer.init,
    Lexer.advance, Lexer.currentChar, opChars, isWs, bind, Except.bind]

/-- C9 (amended): with the stray second `1` removed, the source
`I a=0 { +b a 1 P b }` parses into exactly one `If` command whose
comparison is `a == 0` and whose body is a `Composite` containing, in
order, an `Add` command with target `b` and operands `a` and `1`, and a
`Print` of `b`. -/
theorem nesting_parse_amended :
    parseProgram "I a=0 \x7b +b a 1 P b \x7d" =
      .ok { commands := [CommandNode.ifC
              { left := 'a', operator := "==", right := ValueNode.num '0' }
              (CommandNode.composite
                [CommandNode.binop '+' 'b' (ValueNode.var 'a') (ValueNode.num '1'),
                 CommandNode.printC (ValueNode.var 'b')])] } := by
  simp +decide [parseProgram, Parser.start, Parser.pull, Parser.program_cmds, Parser.command,
    Parser.if_command, Parser.while_command, Parser.composite_command, Parser.composite_cmds,
    Parser.assign_command, Parser.get_command, Parser.binop_command, Parser.print_command,
    Parser.comparison, Parser.operator, Parser.value, Parser.variable_node, Parser.eat,
    Lexer.get_next_token, Lexer.skip_whitespace, Lexer.skip_whitespace_go, Lexer.init,
    Lexer.advance, Lexer.currentChar, opChars, isWs, bind, Except.bind]

/-! ### C1: every variable reference is collected -/

theorem ValueNode.gen_value_state (v : ValueNode) (cg : CodeGenerator) :
    ((v.generate_code cg).2).code = cg.code ∧
    ((v.generate_code cg).2).indent_level = cg.indent_level ∧
    ((v.generate_code cg).2).declared_variables.toFinset =
      cg.declared_variables.toFinset ∪ v.varsOf := by
  cases v with
  | var n =>
    refine ⟨by simp [ValueNode.generate_code], by simp [ValueNode.generate_code], ?_⟩
    simp only [ValueNode.generate_code, ValueNode.varsOf]
    rw [CodeGenerator.add_variable_toFinset]
    ext x
    simp
    all_goals tauto
  | num d =>
    exact ⟨rfl, rfl, by simp [ValueNode.generate_code, ValueNode.varsOf]⟩

theorem ComparisonNode.gen_comparison_state (c : ComparisonNode) (cg : CodeGenerator) :
    ((c.generate_code cg).2).code = cg.code ∧
    ((c.generate_code cg).2).indent_level = cg.indent_level ∧
    ((c.generate_code cg).2).declared_variables.toFinset =
      cg.declared_variables.toFinset ∪ c.varsOf := by
  have hv := ValueNode.gen_value_state c.right (cg.add_variable c.left)
  rcases h : c.right.generate_code (cg.add_variable c.left) with ⟨rc, cg2⟩
  rw [h] at hv
  refine ⟨?_, ?_, ?_⟩
  · simp only [ComparisonNode.generate_code, h]
    rw [hv.1, CodeGenerator.add_variable_code]
  · simp only [ComparisonNode.generate_code, h]
    rw [hv.2.1, CodeGenerator.add_variable_indent_level]
  · simp only [ComparisonNode.generate_code, h, ComparisonNode.varsOf]
    rw [hv.2.2, CodeGenerator.add_variable_toFinset]
    ext x
    simp
    all_goals tauto

mutual

theorem CommandNode.generate_code_vars (c : CommandNode) (cg : CodeGenerator) :
    (c.generate_code cg).declared_variables.toFinset =
      cg.declared_variables.toFinset ∪ c.varsOf := by
  cases c with
  | assign v val =>
    have hv := ValueNode.gen_value_state val (cg.add_variable v)
    rcases h : val.generate_code (cg.add_variable v) with ⟨vc, cg2⟩
    rw [h] at hv
    simp only [CommandNode.generate_code, h, CodeGenerator.emit_vars, CommandNode.varsOf]
    rw [hv.2.2, CodeGenerator.add_variable_toFinset]
    ext x
    simp
    all_goals tauto
  | get v =>
    simp only [CommandNode.generate_code, CodeGenerator.emit_vars, CommandNode.varsOf]
    rw [CodeGenerator.add_variable_toFinset]
    ext x
    simp
    all_goals tauto
  | binop op v l r =>
    have hl := ValueNode.gen_value_state l (cg.add_variable v)
    rcases h1 : l.generate_code (cg.add_variable v) with ⟨lc, cg2⟩
    rw [h1] at hl
    have hr := ValueNode.gen_value_state r cg2
    rcases h2 : r.generate_code cg2 with ⟨rc, cg3⟩
    rw [h2] at hr
    simp only [CommandNode.generate_code, h1, h2, CodeGenerator.emit_vars, CommandNode.varsOf]
    rw [hr.2.2, hl.2.2, CodeGenerator.add_variable_toFinset]
    ext x
    simp
    all_goals tauto
  | printC val =>
    have hv := ValueNode.gen_value_state val cg
    rcases h : val.generate_code cg with ⟨vc, cg1⟩
    rw [h] at hv
    simp only [CommandNode.generate_code, h, CodeGenerator.emit_vars, CommandNode.varsOf]
    rw [hv.2.2]
  | ifC cmp body =>
    have hc := ComparisonNode.gen_comparison_state cmp cg
    rcases h : cmp.generate_code cg with ⟨cc, cg1⟩
    rw [h] at hc
    simp only [CommandNode.generate_code, h, CodeGenerator.emit_vars, CommandNode.varsOf]
    rw [CommandNode.generate_code_vars body _]
    simp only [CodeGenerator.emit_vars]
    rw [hc.2.2]
    ext x
    simp
    all_goals tauto
  | whileC cmp body =>
    have hc := ComparisonNode.gen_comparison_state cmp cg
    rcases h : cmp.generate_code cg with ⟨cc, cg1⟩
    rw [h] at hc
    simp only [CommandNode.generate_code, h, CodeGenerator.emit_vars, CommandNode.varsOf]
    rw [CommandNode.generate_code_vars body _]
    simp only [CodeGenerator.emit_vars]
    rw [hc.2.2]
    ext x
    simp
    all_goals tauto
  | composite cs =>
    simp only [CommandNode.generate_code, CodeGenerator.emit_vars, CommandNode.varsOf]
    rw [CommandNode.generate_list_vars cs _]

theorem CommandNode.generate_list_vars (cs : List CommandNode) (cg : CodeGenerator) :
    (CommandNode.generate_list cs cg).declared_variables.toFinset =
      cg.declared_variables.toFinset ∪ CommandNode.varsOfList cs := by
  cases cs with
  | nil => simp [CommandNode.generate_list, CommandNode.varsOfList]
  | cons c cs' =>
    simp only [CommandNode.generate_list, CommandNode.varsOfList]
    rw [CommandNode.generate_list_vars cs' _, CommandNode.generate_code_vars c cg,
      Finset.union_assoc]

end

/-- C1: for every source program that lexes and parses successfully, the
set of variable names collected by the `CodeGenerator` equals exactly the
set of distinct variable letters appearing anywhere in the program's
commands (assignment target, arithmetic target or operand, `Get` target,
`Print` operand, or comparison operand). -/
theorem declared_variables_complete (input : String) (prog : ProgramNode)
    (_h : parseProgram input = .ok prog) :
    (prog.generate_code CodeGenerator.init).declared_variables.toFinset = prog.varsOf := by
  rw [ProgramNode.generate_code, ProgramNode.varsOf, CommandNode.generate_list_vars]
  simp [CodeGenerator.init]

/-- C1, witness: for the source `=a5`, which parses successfully, the
collected set equals the syntactic variable set. -/
theorem declared_variables_complete_witness :
    parseProgram "=a5" = .ok { commands := [CommandNode.assign 'a' (ValueNode.num '5')] } ∧
    (ProgramNode.generate_code { commands := [CommandNode.assign 'a' (ValueNode.num '5')] }
        CodeGenerator.init).declared_variables.toFinset =
      ProgramNode.varsOf { commands := [CommandNode.assign 'a' (ValueNode.num '5')] } :=
  ⟨rfl, declared_variables_complete "=a5" _ rfl⟩

/-! ### C2 (amended): the driver's assembly of the output -/

theorem pyJoin_mk_cons_ne (sep : String) (a : Char) (rest : List String) :
    pyJoin sep (String.mk [a] :: rest) ≠ "" := by
  cases rest with
  | nil => simp [pyJoin, String.ext_iff]
  | cons b bs => simp [pyJoin, String.ext_iff]

/-- C2 (amended): for every successfully compiled program the output is,
in this exact order: the fixed preamble, one declaration line (listing
every collected variable name sorted ascending and comma-separated when
at least one variable was collected, and the placeholder `int dummy;`
otherwise), the fixed scratch-buffer declaration, the emitted statement
lines in emission order, the unconditional trailing `gets(str);`, the
return statement, and the closing brace. -/
theorem driver_output_order (input : String) (prog : ProgramNode)
    (h : parseProgram input = .ok prog) :
    compileLPS1 input = .ok
      (["#include <stdio.h>", "int main() \x7b"]
        ++ (if List.insertionSort (· ≤ ·)
                (prog.generate_code CodeGenerator.init).declared_variables = []
            then ["    int dummy;"]
            else ["    int " ++ pyJoin ", "
                    ((List.insertionSort (· ≤ ·)
                      (prog.generate_code CodeGenerator.init).declared_variables).map
                        (fun c => String.mk [c])) ++ ";"])
        ++ ["    char str[512]; // auxiliar na leitura com G"]
        ++ (prog.generate_code CodeGenerator.init).code
        ++ ["    gets(str);", "    return 0;", "\x7d"]) ∧
    List.Sorted (· ≤ ·)
      (List.insertionSort (· ≤ ·)
        (prog.generate_code CodeGenerator.init).declared_variables) := by
  constructor
  · simp only [compileLPS1, h, bind, Except.bind]
    rw [mainOutput]
    rcases hn : List.insertionSort (· ≤ ·)
        (prog.generate_code CodeGenerator.init).declared_variables with _ | ⟨a, rest⟩
    · simp [pyJoin]
    · simp only [List.map_cons, ne_eq, if_neg, if_pos,
        pyJoin_mk_cons_ne ", " a (rest.map fun c => String.mk [c]), not_false_eq_true,
        reduceCtorEq, List.cons_ne_self]
  · exact List.sorted_insertionSort _ _

/-- C2, witness: the source `=b7=a2` compiles with the variables listed
in ascending order `a, b` (not insertion order), followed by the body
lines in emission order and the fixed epilogue. -/
theorem driver_output_order_witness :
    parseProgram "=b7=a2" = .ok
      { commands := [CommandNode.assign 'b' (ValueNode.num '7'),
                     CommandNode.assign 'a' (ValueNode.num '2')] } ∧
    (compileLPS1 "=b7=a2" = .ok
      (["#include <stdio.h>", "int main() \x7b"]
        ++ (if List.insertionSort (· ≤ ·)
                (ProgramNode.generate_code
                  { commands := [CommandNode.assign 'b' (ValueNode.num '7'),
                                 CommandNode.assign 'a' (ValueNode.num '2')] }
                  CodeGenerator.init).declared_variables = []
            then ["    int dummy;"]
            else ["    int " ++ pyJoin ", "
                    ((List.insertionSort (· ≤ ·)
                      (ProgramNode.generate_code
                        { commands := [CommandNode.assign 'b' (ValueNode.num '7'),
                                       CommandNode.assign 'a' (ValueNode.num '2')] }
                        CodeGenerator.init).declared_variables).map
                        (fun c => String.mk [c])) ++ ";"])
        ++ ["    char str[512]; // auxiliar na leitura com G"]
        ++ (ProgramNode.generate_code
              { commands := [CommandNode.assign 'b' (ValueNode.num '7'),
                             CommandNode.assign 'a' (ValueNode.num '2')] }
              CodeGenerator.init).code
        ++ ["    gets(str);", "    return 0;", "\x7d"]) ∧
     List.Sorted (· ≤ ·)
       (List.insertionSort (· ≤ ·)
         (ProgramNode.generate_code
           { commands := [CommandNode.assign 'b' (ValueNode.num '7'),
                          CommandNode.assign 'a' (ValueNode.num '2')] }
           CodeGenerator.init).declared_variables)) :=
  ⟨rfl, driver_output_order "=b7=a2" _ rfl⟩

/-! ### Facts about `skip_whitespace` and `get_next_token` -/

theorem isWs_iff (c : Char) : isWs c = true ↔ c = ' ' ∨ c = '\t' ∨ c = '\n' := by
  simp [isWs, or_assoc]

theorem pyIslower_not_ws (c : Char) (h : pyIslower c = true) : isWs c = false := by
  by_contra hne
  have hws : isWs c = true := by
    cases hx : isWs c
    · exact absurd hx hne
    · rfl
  rcases (isWs_iff c).mp hws with rfl | rfl | rfl <;> exact absurd h (by decide)

theorem pyIsdigit_not_ws (c : Char) (h : pyIsdigit c = true) : isWs c = false := by
  by_contra hne
  have hws : isWs c = true := by
    cases hx : isWs c
    · exact absurd hx hne
    · rfl
  rcases (isWs_iff c).mp hws with rfl | rfl | rfl <;> exact absurd h (by decide)

theorem opChars_not_ws : ∀ c ∈ opChars, isWs c = false := by decide


theorem Lexer.skip_whitespace_spec_aux :
    ∀ (n : Nat) (lx : Lexer), lx.text.length - lx.pos = n →
      lx.skip_whitespace.text = lx.text ∧
      lx.pos ≤ lx.skip_whitespace.pos ∧
      (lx.pos ≤ lx.text.length → lx.skip_whitespace.pos ≤ lx.text.length) ∧
      (lx.text.drop lx.pos).filter (fun c => !(isWs c)) =
        (lx.skip_whitespace.text.drop lx.skip_whitespace.pos).filter (fun c => !(isWs c)) := by
  intro n
  induction n using Nat.strong_induction_on with
  | _ n ih =>
    intro lx hn
    rw [Lexer.skip_whitespace_eq]
    rcases hc : lx.currentChar with _ | c
    · simp [hc]
    · have hlt := Lexer.currentChar_some_lt hc
      by_cases hw : isWs c
      · simp only [hc, hw, if_true]
        have hmeas : lx.advance.text.length - lx.advance.pos < n := by
          simp only [Lexer.advance_text, Lexer.advance_pos]
          omega
        obtain ⟨h1, h2, h3, h4⟩ := ih _ hmeas lx.advance rfl
        have hdrop : lx.text.drop lx.pos = c :: lx.text.drop (lx.pos + 1) := by
          obtain ⟨_, he⟩ := List.getElem?_eq_some.mp hc
          rw [List.drop_eq_getElem_cons hlt, he]
        refine ⟨by rw [h1]; rfl, by simp only [Lexer.advance_pos] at h2; omega, ?_, ?_⟩
        · intro hb
          have := h3 (by simp only [Lexer.advance_text, Lexer.advance_pos]; omega)
          simpa using this
        · rw [hdrop, List.filter_cons]
          have hcw : (!(isWs c)) = false := by simp [hw]
          rw [hcw]
          simp only [Bool.false_eq_true, if_false]
          rw [← h4]
          simp
      · simp [hc, hw]

theorem Lexer.skip_whitespace_spec (lx : Lexer) :
    lx.skip_whitespace.text = lx.text ∧
    lx.pos ≤ lx.skip_whitespace.pos ∧
    (lx.pos ≤ lx.text.length → lx.skip_whitespace.pos ≤ lx.text.length) ∧
    (lx.text.drop lx.pos).filter (fun c => !(isWs c)) =
      (lx.skip_whitespace.text.drop lx.skip_whitespace.pos).filter (fun c => !(isWs c)) :=
  Lexer.skip_whitespace_spec_aux _ lx rfl

theorem Lexer.skip_whitespace_current_aux :
    ∀ (n : Nat) (lx : Lexer), lx.text.length - lx.pos = n →
      ∀ c, lx.skip_whitespace.currentChar = some c → isWs c = false := by
  intro n
  induction n using Nat.strong_induction_on with
  | _ n ih =>
    intro lx hn c hc
    rw [Lexer.skip_whitespace_eq] at hc
    rcases hcur : lx.currentChar with _ | c0
    · simp only [hcur] at hc
      exact Option.noConfusion hc
    · have hlt := Lexer.currentChar_some_lt hcur
      by_cases hw : isWs c0
      · simp only [hcur, hw, if_true] at hc
        exact ih (lx.advance.text.length - lx.advance.pos)
          (by simp only [Lexer.advance_text, Lexer.advance_pos]; omega) lx.advance rfl c hc
      · have hw' : isWs c0 = false := by simpa using hw
        simp only [hcur, hw', Bool.false_eq_true, if_false] at hc
        have : c0 = c := Option.some.inj hc
        rw [← this]
        exact hw'

theorem Lexer.skip_whitespace_current (lx : Lexer) :
    ∀ c, lx.skip_whitespace.currentChar = some c → isWs c = false :=
  Lexer.skip_whitespace_current_aux _ lx rfl

theorem Lexer.skip_whitespace_idem (lx : Lexer) :
    lx.skip_whitespace.skip_whitespace = lx.skip_whitespace := by
  conv_lhs => rw [Lexer.skip_whitespace_eq]
  rcases h : lx.skip_whitespace.currentChar with _ | c
  · simp only [h]
  · simp [h, Lexer.skip_whitespace_current lx c h]

theorem Lexer.get_next_token_skip (lx : Lexer) :
    lx.get_next_token = lx.skip_whitespace.get_next_token := by
  rw [Lexer.get_next_token, Lexer.get_next_token, Lexer.skip_whitespace_idem]

theorem Lexer.get_next_token_ok (lx : Lexer) {t : Token} {lx' : Lexer}
    (h : lx.get_next_token = .ok (t, lx')) :
    lx'.text = lx.text ∧
    (t.type = .eofT → lx' = lx.skip_whitespace ∧ t.value = none ∧
      (lx.text.drop lx.pos).filter (fun c => !(isWs c)) = []) ∧
    (t.type ≠ .eofT →
      lx.pos < lx'.pos ∧ (lx.pos ≤ lx.text.length → lx'.pos ≤ lx.text.length) ∧
      ∃ c, t.value = some c ∧ isWs c = false ∧
        (lx.text.drop lx.pos).filter (fun x => !(isWs x)) =
          c :: (lx.text.drop lx'.pos).filter (fun x => !(isWs x))) := by
  obtain ⟨hst, hsp, hsb, hsf⟩ := Lexer.skip_whitespace_spec lx
  have pair_eq : ∀ (a b : Token × Lexer),
      (Except.ok a : Except LexError (Token × Lexer)) = .ok b → a.1 = b.1 ∧ a.2 = b.2 := by
    intro a b hab
    injection hab with h2
    exact ⟨congrArg Prod.fst h2, congrArg Prod.snd h2⟩
  rcases hc : lx.skip_whitespace.currentChar with _ | c
  · have hb : lx.get_next_token = .ok
        ({ type := .eofT, value := none, line := lx.skip_whitespace.line,
           column := lx.skip_whitespace.column }, lx.skip_whitespace) := by
      simp only [Lexer.get_next_token]
      rw [hc]
    obtain ⟨ht, hlx⟩ := pair_eq _ _ (hb.symm.trans h)
    subst ht
    subst hlx
    refine ⟨hst, fun _ => ⟨rfl, rfl, ?_⟩, fun hne => absurd rfl hne⟩
    have hlen : lx.skip_whitespace.text.length ≤ lx.skip_whitespace.pos := by
      by_contra hlt
      rw [Lexer.currentChar, List.getElem?_eq_some.mpr ⟨by omega, rfl⟩] at hc
      exact Option.noConfusion hc
    rw [hsf, List.drop_eq_nil_of_le (by omega), List.filter_nil]
  · have hlt : lx.skip_whitespace.pos < lx.text.length := by
      have := Lexer.currentChar_some_lt hc
      rwa [hst] at this
    have hdrop : lx.text.drop lx.skip_whitespace.pos =
        c :: lx.text.drop (lx.skip_whitespace.pos + 1) := by
      obtain ⟨_, he⟩ := List.getElem?_eq_some.mp hc
      rw [List.drop_eq_getElem_cons hlt]
      congr 1
      rw [← he]
      congr 1
      rw [hst]
    have hnonws : ∀ _hw : isWs c = false,
        (lx.text.drop lx.pos).filter (fun x => !(isWs x)) =
          c :: (lx.text.drop (lx.skip_whitespace.pos + 1)).filter (fun x => !(isWs x)) := by
      intro hw
      rw [hsf, hst, hdrop, List.filter_cons]
      simp [hw]
    have hcommon : ∀ tt : TType, tt ≠ .eofT →
        ∀ hb : lx.get_next_token = .ok
          ({ type := tt, value := some c, line := lx.skip_whitespace.line,
             column := lx.skip_whitespace.column }, lx.skip_whitespace.advance),
        isWs c = false →
        lx'.text = lx.text ∧
        (t.type = .eofT → lx' = lx.skip_whitespace ∧ t.value = none ∧
          (lx.text.drop lx.pos).filter (fun x => !(isWs x)) = []) ∧
        (t.type ≠ .eofT →
          lx.pos < lx'.pos ∧ (lx.pos ≤ lx.text.length → lx'.pos ≤ lx.text.length) ∧
          ∃ c2, t.value = some c2 ∧ isWs c2 = false ∧
            (lx.text.drop lx.pos).filter (fun x => !(isWs x)) =
              c2 :: (lx.text.drop lx'.pos).filter (fun x => !(isWs x))) := by
      intro tt htne hb hw
      obtain ⟨ht, hlx⟩ := pair_eq _ _ (hb.symm.trans h)
      subst ht
      subst hlx
      refine ⟨by rw [Lexer.advance_text, hst], fun he => absurd he htne, fun _ => ?_⟩
      refine ⟨by rw [Lexer.advance_pos]; omega,
        fun hb2 => by rw [Lexer.advance_pos]; omega, c, rfl, hw, ?_⟩
      rw [Lexer.advance_pos]
      exact hnonws hw
    by_cases hop : c ∈ opChars
    · refine hcommon (.sym c) (by simp) ?_ (opChars_not_ws c hop)
      simp [Lexer.get_next_token, hc, hop]
    · by_cases hlow : pyIslower c
      · refine hcommon .varT (by simp) ?_ (pyIslower_not_ws c hlow)
        simp [Lexer.get_next_token, hc, hop, hlow]
      · by_cases hdig : pyIsdigit c
        · refine hcommon .numT (by simp) ?_ (pyIsdigit_not_ws c hdig)
          simp [Lexer.get_next_token, hc, hop, hlow, hdig]
        · exfalso
          have hb : lx.get_next_token = .error (.invalidChar c
              lx.skip_whitespace.line lx.skip_whitespace.column) := by
            simp [Lexer.get_next_token, hc, hop, hlow, hdig]
          rw [hb] at h
          exact Except.noConfusion h

theorem Lexer.tokens_from_ok :
    ∀ (f : Nat) (lx : Lexer) (toks : List Token),
      lx.tokens_from f = some (.ok toks) →
      ∃ ts tEnd, toks = ts ++ [tEnd] ∧ tEnd.type = .eofT ∧
        (∀ u ∈ ts, u.type ≠ .eofT) ∧
        toks.flatMap tokVal = (lx.text.drop lx.pos).filter (fun c => !(isWs c)) := by
  intro f
  induction f with
  | zero => intro lx toks h; exact Option.noConfusion h
  | succ k ih =>
    intro lx toks h
    rcases hg : lx.get_next_token with e | ⟨t, lx2⟩
    · simp only [Lexer.tokens_from, hg] at h
      simp at h
    · simp only [Lexer.tokens_from, hg] at h
      obtain ⟨htext, heof, hne⟩ := Lexer.get_next_token_ok lx hg
      by_cases ht : t.type = .eofT
      · rw [if_pos ht] at h
        simp only [Option.some.injEq, Except.ok.injEq] at h
        subst h
        obtain ⟨-, hval, hfil⟩ := heof ht
        refine ⟨[], t, rfl, ht, by simp, ?_⟩
        simp [tokVal, hval, hfil]
      · rw [if_neg ht] at h
        rcases hrest : lx2.tokens_from k with _ | r
        · simp only [hrest] at h
          exact Option.noConfusion h
        · rcases r with e2 | ts2
          · simp only [hrest] at h
            simp at h
          · simp only [hrest, Option.some.injEq, Except.ok.injEq] at h
            subst h
            obtain ⟨ts3, te3, hdec, hte, hall, hflat⟩ := ih lx2 ts2 hrest
            obtain ⟨hpos, hbnd, c, hval, hw, hfil⟩ := hne ht
            refine ⟨t :: ts3, te3, by rw [hdec, List.cons_append], hte, ?_, ?_⟩
            · intro u hu
              rcases List.mem_cons.mp hu with rfl | hu2
              · exact ht
              · exact hall u hu2
            · rw [List.flatMap_cons, hflat, htext, hfil]
              simp [tokVal, hval]

theorem Lexer.tokens_from_total :
    ∀ (f : Nat) (lx : Lexer),
      lx.pos ≤ lx.text.length → lx.text.length + 1 - lx.pos ≤ f →
      lx.tokens_from f ≠ none := by
  intro f
  induction f with
  | zero => intro lx hp hf; omega
  | succ k ih =>
    intro lx hp hf
    rcases hg : lx.get_next_token with e | ⟨t, lx2⟩
    · simp [Lexer.tokens_from, hg]
    · obtain ⟨htext, heof, hne⟩ := Lexer.get_next_token_ok lx hg
      by_cases ht : t.type = .eofT
      · simp [Lexer.tokens_from, hg, ht]
      · simp only [Lexer.tokens_from, hg, if_neg ht]
        obtain ⟨hpos, hbnd, -⟩ := hne ht
        have h2 : lx2.pos ≤ lx2.text.length := by rw [htext]; exact hbnd hp
        have h3 : lx2.text.length + 1 - lx2.pos ≤ k := by rw [htext]; omega
        rcases hrest : lx2.tokens_from k with _ | r
        · exact absurd hrest (ih lx2 h2 h3)
        · rcases r with e2 | ts2 <;> simp [hrest]

/-! ### C5: tokenization round-trip -/

/-- C5, counterexample: the lexer's constructor removes carriage returns
before lexing (`text.replace('\r', '')`, line 16), so for the input
`"a\rb"` — on which no lexical error is raised — the concatenation of the
tokens' literal values is `ab`, while the input with only the whitespace
characters space, tab and newline removed is `a\rb`.  The claim as
stated therefore fails on inputs containing carriage returns. -/
theorem lexer_concat_counterexample :
    Lexer.tokenize "a\rb" = some (.ok
      [{ type := .varT, value := some 'a', line := 1, column := 1 },
       { type := .varT, value := some 'b', line := 1, column := 2 },
       { type := .eofT, value := none, line := 1, column := 3 }]) ∧
    ([({ type := .varT, value := some 'a', line := 1, column := 1 } : Token),
      { type := .varT, value := some 'b', line := 1, column := 2 },
      { type := .eofT, value := none, line := 1, column := 3 }].flatMap tokVal
      = ['a', 'b']) ∧
    "a\rb".data.filter (fun c => !(isWs c)) = ['a', '\r', 'b'] ∧
    (['a', 'b'] : List Char) ≠ ['a', '\r', 'b'] := by
  refine ⟨rfl, rfl, rfl, by decide⟩

/-- C5 (amended): for every input text the tokenizer terminates, and when
it raises no lexical error it yields a finite token sequence whose final
token — and only that token — is `EOF`, and the concatenation of the
tokens' literal values equals the input text with all whitespace
characters (space, tab, newline) *and all carriage returns* removed (the
latter because the constructor strips `'\r'` before lexing). -/
theorem lexer_tokenize_concat :
    (∀ input : String, Lexer.tokenize input ≠ none) ∧
    (∀ (input : String) (toks : List Token),
      Lexer.tokenize input = some (.ok toks) →
      ∃ ts tEnd, toks = ts ++ [tEnd] ∧ tEnd.type = .eofT ∧
        (∀ u ∈ ts, u.type ≠ .eofT) ∧
        toks.flatMap tokVal = input.data.filter (fun c => !(isWs c) && c != '\r')) := by
  constructor
  · intro input
    apply Lexer.tokens_from_total
    · exact Nat.zero_le _
    · exact le_refl _
  · intro input toks h
    obtain ⟨ts, tEnd, h1, h2, h3, h4⟩ := Lexer.tokens_from_ok _ _ _ h
    refine ⟨ts, tEnd, h1, h2, h3, ?_⟩
    rw [h4]
    simp only [Lexer.init, List.drop_zero, List.filter_filter]

/-- C5, witness: the input `a b` tokenizes without error; the resulting
sequence ends in (exactly one) `EOF` token and the concatenation of the
literal values is `ab`. -/
theorem lexer_tokenize_concat_witness :
    Lexer.tokenize "a b" = some (.ok
      [{ type := .varT, value := some 'a', line := 1, column := 1 },
       { type := .varT, value := some 'b', line := 1, column := 3 },
       { type := .eofT, value := none, line := 1, column := 4 }]) ∧
    (∃ ts tEnd,
      ([({ type := .varT, value := some 'a', line := 1, column := 1 } : Token),
        { type := .varT, value := some 'b', line := 1, column := 3 },
        { type := .eofT, value := none, line := 1, column := 4 }] : List Token)
        = ts ++ [tEnd] ∧ tEnd.type = .eofT ∧
      (∀ u ∈ ts, u.type ≠ .eofT) ∧
      [({ type := .varT, value := some 'a', line := 1, column := 1 } : Token),
       { type := .varT, value := some 'b', line := 1, column := 3 },
       { type := .eofT, value := none, line := 1, column := 4 }].flatMap tokVal
        = "a b".data.filter (fun c => !(isWs c) && c != '\r')) :=
  ⟨rfl, lexer_tokenize_concat.2 "a b" _ rfl⟩

/-! ### C6: EOF forever after exhaustion -/

theorem Lexer.get_next_token_exhausted (lx : Lexer) (h : lx.text.length ≤ lx.pos) :
    lx.get_next_token =
      .ok ({ type := .eofT, value := none, line := lx.line, column := lx.column }, lx) := by
  have hnone : lx.currentChar = none := by
    rw [Lexer.currentChar]
    exact List.getElem?_eq_none h
  have hskip : lx.skip_whitespace = lx := by
    rw [Lexer.skip_whitespace_eq, hnone]
  simp [Lexer.get_next_token, hskip, hnone]

/-- C6: once the lexer has consumed all input (`pos` at or past the end
of the text), every subsequent call of `get_next_token` succeeds and
returns an `EOF` token carrying the current line and column, leaving the
state unchanged — calling it `n` times yields `n` identical `EOF` tokens
and never fails and never yields another token kind. -/
theorem lexer_eof_forever (lx : Lexer) (n : Nat) (h : lx.text.length ≤ lx.pos) :
    lx.call_repeat n =
      .ok (List.replicate n { type := .eofT, value := none, line := lx.line, column := lx.column },
        lx) := by
  induction n with
  | zero => simp [Lexer.call_repeat]
  | succ k ih =>
    simp [Lexer.call_repeat, Lexer.get_next_token_exhausted lx h, ih, List.replicate_succ]

/-- C6, witness: on the empty input the lexer is exhausted immediately
and three successive calls return three `EOF` tokens. -/
theorem lexer_eof_forever_witness :
    (Lexer.init "").text.length ≤ (Lexer.init "").pos ∧
    (Lexer.init "").call_repeat 3 =
      .ok (List.replicate 3 { type := .eofT, value := none, line := 1, column := 1 },
        Lexer.init "") :=
  ⟨by decide, lexer_eof_forever (Lexer.init "") 3 (by decide)⟩

/-! ### C7: classification of the current character -/

/-- C7, counterexample: the lexer's classification is Python's
Unicode-aware one, not the a-z / 0-9 alphabet of the language.  The
superscript `²` (U+00B2) is not one of the fixed operator characters, not
a lowercase letter `a`-`z`, not a digit `0`-`9` and not whitespace, yet
`get_next_token` does not fail: `'²'.isdigit()` is `True` in Python
(line 59 of the source), so it returns a `NUMBER` token carrying `²`.
Likewise `á` (U+00E1) is outside `a`-`z` but `'á'.islower()` is `True`
(line 54), so it yields a `VARIABLE` token. -/
theorem lexer_unicode_counterexample :
    '²' ∉ opChars ∧ isWs '²' = false ∧ ¬('a' ≤ '²' ∧ '²' ≤ 'z') ∧ ¬('0' ≤ '²' ∧ '²' ≤ '9') ∧
    (Lexer.init "²").get_next_token =
      .ok ({ type := .numT, value := some '²', line := 1, column := 1 },
        { text := ['²'], pos := 1, line := 1, column := 2 }) ∧
    '\u00e1' ∉ opChars ∧ isWs '\u00e1' = false ∧ ¬('a' ≤ '\u00e1' ∧ '\u00e1' ≤ 'z') ∧
    (Lexer.init "\u00e1").get_next_token =
      .ok ({ type := .varT, value := some '\u00e1', line := 1, column := 1 },
        { text := ['\u00e1'], pos := 1, line := 1, column := 2 }) := by
  refine ⟨by decide, rfl, by decide, by decide, rfl, by decide, rfl, by decide, rfl⟩

/-- C7 (amended): (i) whenever the current character is not whitespace,
not one of the fixed operator characters, not lowercase according to
Python's Unicode-aware `str.islower()` and not a digit according to
Python's Unicode-aware `str.isdigit()`, `get_next_token` fails with the
lexical error carrying that character and its line and column; (ii)
whitespace is skipped — tokenizing from any state is the same as
tokenizing after `skip_whitespace`; and (iii) no token ever produced
carries a whitespace character as its value. -/
theorem lexer_invalid_char_error :
    (∀ (lx : Lexer) (c : Char), lx.currentChar = some c → isWs c = false →
      c ∉ opChars → pyIslower c = false → pyIsdigit c = false →
      lx.get_next_token = .error (.invalidChar c lx.line lx.column)) ∧
    (∀ lx : Lexer, lx.get_next_token = lx.skip_whitespace.get_next_token) ∧
    (∀ (lx lx' : Lexer) (t : Token), lx.get_next_token = .ok (t, lx') →
      ∀ c, t.value = some c → isWs c = false) := by
  refine ⟨?_, Lexer.get_next_token_skip, ?_⟩
  · intro lx c h hw hop hlow hdig
    have hskip : lx.skip_whitespace = lx := by
      rw [Lexer.skip_whitespace_eq, h]
      simp [hw]
    simp [Lexer.get_next_token, hskip, h, hop, hlow, hdig]
  · intro lx lx' t h c hv
    obtain ⟨-, heof, hne⟩ := Lexer.get_next_token_ok lx h
    by_cases ht : t.type = .eofT
    · obtain ⟨-, hvn, -⟩ := heof ht
      rw [hvn] at hv
      exact Option.noConfusion hv
    · obtain ⟨-, -, c', hv', hw', -⟩ := hne ht
      rw [hv'] at hv
      rw [← Option.some.inj hv]
      exact hw'

/-- C7, witness: on the input `@` (not an operator, not lowercase and not
a digit per Python's classification, not whitespace) the lexer fails with
the lexical error carrying `@` at line 1, column 1. -/
theorem lexer_invalid_char_error_witness :
    (Lexer.init "@").currentChar = some '@' ∧ isWs '@' = false ∧ '@' ∉ opChars ∧
    pyIslower '@' = false ∧ pyIsdigit '@' = false ∧
    (Lexer.init "@").get_next_token = .error (.invalidChar '@' 1 1) :=
  ⟨rfl, rfl, by decide, by decide, by decide,
    lexer_invalid_char_error.1 (Lexer.init "@") '@' rfl rfl (by decide) (by decide) (by decide)⟩

/-! ### C10: the indentation discipline -/

mutual

theorem CommandNode.generate_code_indent (c : CommandNode) (cg : CodeGenerator) :
    (c.generate_code cg).indent_level = cg.indent_level := by
  cases c with
  | assign v val =>
    have hv := ValueNode.gen_value_state val (cg.add_variable v)
    rcases h : val.generate_code (cg.add_variable v) with ⟨vc, cg2⟩
    rw [h] at hv
    simp only [CommandNode.generate_code, h, CodeGenerator.emit_indent_level]
    rw [hv.2.1, CodeGenerator.add_variable_indent_level]
  | get v =>
    simp only [CommandNode.generate_code, CodeGenerator.emit_indent_level,
      CodeGenerator.add_variable_indent_level]
  | binop op v l r =>
    have hl := ValueNode.gen_value_state l (cg.add_variable v)
    rcases h1 : l.generate_code (cg.add_variable v) with ⟨lc, cg2⟩
    rw [h1] at hl
    have hr := ValueNode.gen_value_state r cg2
    rcases h2 : r.generate_code cg2 with ⟨rc, cg3⟩
    rw [h2] at hr
    simp only [CommandNode.generate_code, h1, h2, CodeGenerator.emit_indent_level]
    rw [hr.2.1, hl.2.1, CodeGenerator.add_variable_indent_level]
  | printC val =>
    have hv := ValueNode.gen_value_state val cg
    rcases h : val.generate_code cg with ⟨vc, cg1⟩
    rw [h] at hv
    simp only [CommandNode.generate_code, h, CodeGenerator.emit_indent_level]
    rw [hv.2.1]
  | ifC cmp body =>
    have hc := ComparisonNode.gen_comparison_state cmp cg
    rcases h : cmp.generate_code cg with ⟨cc, cg1⟩
    rw [h] at hc
    simp only [CommandNode.generate_code, h, CodeGenerator.emit_indent_level]
    rw [CommandNode.generate_code_indent body _]
    simp only [CodeGenerator.emit_indent_level]
    rw [hc.2.1]
    omega
  | whileC cmp body =>
    have hc := ComparisonNode.gen_comparison_state cmp cg
    rcases h : cmp.generate_code cg with ⟨cc, cg1⟩
    rw [h] at hc
    simp only [CommandNode.generate_code, h, CodeGenerator.emit_indent_level]
    rw [CommandNode.generate_code_indent body _]
    simp only [CodeGenerator.emit_indent_level]
    rw [hc.2.1]
    omega
  | composite cs =>
    simp only [CommandNode.generate_code, CodeGenerator.emit_indent_level]
    rw [CommandNode.generate_list_indent cs _]
    simp only [CodeGenerator.emit_indent_level]
    omega

theorem CommandNode.generate_list_indent (cs : List CommandNode) (cg : CodeGenerator) :
    (CommandNode.generate_list cs cg).indent_level = cg.indent_level := by
  cases cs with
  | nil => rfl
  | cons c cs' =>
    simp only [CommandNode.generate_list]
    rw [CommandNode.generate_list_indent cs' _, CommandNode.generate_code_indent c cg]

end

theorem goodLine_of_level_eq (k : Int) (cg' : CodeGenerator)
    (h : cg'.indent_level = k) (r : String) (h1 : r ≠ "")
    (h2 : r.data.head? ≠ some ' ') : goodLine k (cg'.indent ++ r) :=
  ⟨r, by rw [CodeGenerator.indent_eq, h], h1, h2⟩

theorem head_ne_space_mk (v : Char) (hv : v.isLower = true) (s : String) :
    (String.mk [v] ++ s).data.head? ≠ some ' ' := by
  have hh : (String.mk [v] ++ s).data.head? = some v := by simp
  rw [hh]
  intro he
  cases Option.some.inj he
  exact absurd hv (by decide)

theorem linesOk_single (cg : CodeGenerator) (L : String)
    (h : goodLine cg.indent_level L) : linesOk cg [L] := by
  refine ⟨by simp, ?_, ?_, ?_⟩
  · intro l hl
    rw [List.mem_singleton.mp hl]
    exact ⟨cg.indent_level, le_refl _, h⟩
  · intro l hl
    simp only [List.head?_cons, Option.some.injEq] at hl
    rw [← hl]
    exact h
  · intro l hl
    simp only [List.getLast?_singleton, Option.some.injEq] at hl
    rw [← hl]
    exact h

theorem linesOk_three (cg : CodeGenerator) (L1 L2 L3 : String)
    (h1 : goodLine cg.indent_level L1) (h2 : goodLine cg.indent_level L2)
    (h3 : goodLine cg.indent_level L3) : linesOk cg [L1, L2, L3] := by
  refine ⟨by simp, ?_, ?_, ?_⟩
  · intro l hl
    rcases List.mem_cons.mp hl with rfl | hl2
    · exact ⟨cg.indent_level, le_refl _, h1⟩
    · rcases List.mem_cons.mp hl2 with rfl | hl3
      · exact ⟨cg.indent_level, le_refl _, h2⟩
      · rw [List.mem_singleton.mp hl3]
        exact ⟨cg.indent_level, le_refl _, h3⟩
  · intro l hl
    simp only [List.head?_cons, Option.some.injEq] at hl
    rw [← hl]
    exact h1
  · intro l hl
    simp only [List.getLast?_cons_cons, List.getLast?_singleton, Option.some.injEq] at hl
    rw [← hl]
    exact h3

theorem linesOk_block (cg : CodeGenerator) (L1 L2 : String) (ls2 : List String)
    (h1 : goodLine cg.indent_level L1) (h2 : goodLine cg.indent_level L2)
    (hls : ∀ l ∈ ls2, ∃ k : Int, cg.indent_level + 1 ≤ k ∧ goodLine k l) :
    linesOk cg (L1 :: (ls2 ++ [L2])) := by
  refine ⟨by simp, ?_, ?_, ?_⟩
  · intro l hl
    rcases List.mem_cons.mp hl with rfl | hl2
    · exact ⟨cg.indent_level, le_refl _, h1⟩
    · rcases List.mem_append.mp hl2 with hin | hone
      · obtain ⟨k, hk, hg⟩ := hls l hin
        exact ⟨k, by omega, hg⟩
      · rw [List.mem_singleton.mp hone]
        exact ⟨cg.indent_level, le_refl _, h2⟩
  · intro l hl
    simp only [List.head?_cons, Option.some.injEq] at hl
    rw [← hl]
    exact h1
  · intro l hl
    rw [← List.cons_append, List.getLast?_concat] at hl
    rw [← Option.some.inj hl]
    exact h2

mutual

theorem CommandNode.generate_code_lines (c : CommandNode) (cg : CodeGenerator)
    (hwf : c.wfb = true) :
    ∃ ls, (c.generate_code cg).code = cg.code ++ ls ∧ linesOk cg ls := by
  cases c with
  | assign v val =>
    simp only [CommandNode.wfb, Bool.and_eq_true] at hwf
    have hv := ValueNode.gen_value_state val (cg.add_variable v)
    rcases h : val.generate_code (cg.add_variable v) with ⟨vc, cg2⟩
    rw [h] at hv
    simp only [CommandNode.generate_code, h]
    refine ⟨[cg2.indent ++ String.mk [v] ++ " = " ++ vc ++ ";"], ?_, ?_⟩
    · simp only [CodeGenerator.emit_code]
      rw [hv.1, CodeGenerator.add_variable_code]
    · apply linesOk_single
      have hlvl : cg2.indent_level = cg.indent_level := by
        rw [hv.2.1, CodeGenerator.add_variable_indent_level]
      have hg := goodLine_of_level_eq cg.indent_level cg2 hlvl
        (String.mk [v] ++ (" = " ++ (vc ++ ";"))) (by simp [String.ext_iff])
        (head_ne_space_mk v hwf.1 _)
      simpa [String.append_assoc] using hg
  | get v =>
    simp only [CommandNode.generate_code]
    set cg1 := cg.add_variable v with hcg1
    set L1 := cg1.indent ++ "\x7b gets(str);" with hL1
    set cg2 := cg1.emit L1 with hcg2
    set L2 := cg2.indent ++ "sscanf(str, \"%d\", &" ++ String.mk [v] ++ ");" with hL2
    set cg3 := cg2.emit L2 with hcg3
    set L3 := cg3.indent ++ "\x7d" with hL3
    have hlvl1 : cg1.indent_level = cg.indent_level := by
      rw [hcg1, CodeGenerator.add_variable_indent_level]
    have hlvl2 : cg2.indent_level = cg.indent_level := by
      rw [hcg2, CodeGenerator.emit_indent_level, hlvl1]
    have hlvl3 : cg3.indent_level = cg.indent_level := by
      rw [hcg3, CodeGenerator.emit_indent_level, hlvl2]
    refine ⟨[L1, L2, L3], ?_, ?_⟩
    · rw [hcg3, hcg2, hcg1]
      simp only [CodeGenerator.emit_code, CodeGenerator.add_variable_code]
      simp
    · apply linesOk_three
      · rw [hL1]
        exact goodLine_of_level_eq cg.indent_level cg1 hlvl1 "\x7b gets(str);"
          (by decide) (by decide)
      · rw [hL2]
        have hg := goodLine_of_level_eq cg.indent_level cg2 hlvl2
          ("sscanf(str, \"%d\", &" ++ (String.mk [v] ++ ");"))
          (by simp [String.ext_iff]) (by simp)
        simpa [String.append_assoc] using hg
      · rw [hL3]
        exact goodLine_of_level_eq cg.indent_level cg3 hlvl3 "\x7d" (by decide) (by decide)
  | binop op v l r =>
    simp only [CommandNode.wfb, Bool.and_eq_true] at hwf
    have hl := ValueNode.gen_value_state l (cg.add_variable v)
    rcases h1 : l.generate_code (cg.add_variable v) with ⟨lc, cg2⟩
    rw [h1] at hl
    have hr := ValueNode.gen_value_state r cg2
    rcases h2 : r.generate_code cg2 with ⟨rc, cg3⟩
    rw [h2] at hr
    simp only [CommandNode.generate_code, h1, h2]
    refine ⟨[cg3.indent ++ String.mk [v] ++ " = " ++ lc ++ " " ++ String.mk [op] ++ " "
      ++ rc ++ ";"], ?_, ?_⟩
    · simp only [CodeGenerator.emit_code]
      rw [hr.1, hl.1, CodeGenerator.add_variable_code]
    · apply linesOk_single
      have hlvl : cg3.indent_level = cg.indent_level := by
        rw [hr.2.1, hl.2.1, CodeGenerator.add_variable_indent_level]
      have hg := goodLine_of_level_eq cg.indent_level cg3 hlvl
        (String.mk [v] ++ (" = " ++ (lc ++ (" " ++ (String.mk [op] ++ (" " ++ (rc ++ ";")))))))
        (by simp [String.ext_iff]) (head_ne_space_mk v hwf.1.1.2 _)
      simpa [String.append_assoc] using hg
  | printC val =>
    have hv := ValueNode.gen_value_state val cg
    rcases h : val.generate_code cg with ⟨vc, cg1⟩
    rw [h] at hv
    simp only [CommandNode.generate_code, h]
    refine ⟨[cg1.indent ++ "printf(\"%d\\n\", " ++ vc ++ ");"], ?_, ?_⟩
    · simp only [CodeGenerator.emit_code]
      rw [hv.1]
    · apply linesOk_single
      have hg := goodLine_of_level_eq cg.indent_level cg1 hv.2.1
        ("printf(\"%d\\n\", " ++ (vc ++ ");")) (by simp [String.ext_iff]) (by simp)
      simpa [String.append_assoc] using hg
  | ifC cmp body =>
    simp only [CommandNode.wfb, Bool.and_eq_true] at hwf
    have hc := ComparisonNode.gen_comparison_state cmp cg
    rcases h : cmp.generate_code cg with ⟨cc, cg1⟩
    rw [h] at hc
    have hccode : cg1.code = cg.code := hc.1
    have hclvl : cg1.indent_level = cg.indent_level := hc.2.1
    simp only [CommandNode.generate_code, h]
    set L1 := cg1.indent ++ "if ( " ++ cc ++ " ) \x7b" with hL1
    set cg2 := cg1.emit L1 with hcg2
    set cg3 : CodeGenerator := { cg2 with indent_level := cg2.indent_level + 1 } with hcg3
    obtain ⟨ls2, hcode2, hok2⟩ := CommandNode.generate_code_lines body cg3 hwf.2
    set cg4 := body.generate_code cg3 with hcg4
    set cg5 : CodeGenerator := { cg4 with indent_level := cg4.indent_level - 1 } with hcg5
    set L2 := cg5.indent ++ "\x7d" with hL2
    have hlvl3 : cg3.indent_level = cg.indent_level + 1 := by
      rw [hcg3]
      simp only [hcg2, CodeGenerator.emit_indent_level, hclvl]
    have hlvl4 : cg4.indent_level = cg.indent_level + 1 := by
      rw [hcg4, CommandNode.generate_code_indent body cg3, hlvl3]
    have hlvl5 : cg5.indent_level = cg.indent_level := by
      rw [hcg5]
      simp only [hlvl4]
      omega
    refine ⟨L1 :: (ls2 ++ [L2]), ?_, ?_⟩
    · have hcode4 : cg4.code = cg.code ++ [L1] ++ ls2 := by
        rw [hcg4, hcode2, hcg3]
        simp only [hcg2, CodeGenerator.emit_code, hccode]
      simp only [CodeGenerator.emit_code, hcg5]
      rw [hcode4]
      simp [List.append_assoc]
    · apply linesOk_block
      · rw [hL1]
        have hg := goodLine_of_level_eq cg.indent_level cg1 hclvl
          ("if ( " ++ (cc ++ " ) \x7b")) (by simp [String.ext_iff]) (by simp)
        simpa [String.append_assoc] using hg
      · rw [hL2]
        exact goodLine_of_level_eq cg.indent_level cg5 hlvl5 "\x7d" (by decide) (by decide)
      · intro l hlm
        obtain ⟨k, hk, hg⟩ := hok2.2.1 l hlm
        rw [hlvl3] at hk
        exact ⟨k, hk, hg⟩
  | whileC cmp body =>
    simp only [CommandNode.wfb, Bool.and_eq_true] at hwf
    have hc := ComparisonNode.gen_comparison_state cmp cg
    rcases h : cmp.generate_code cg with ⟨cc, cg1⟩
    rw [h] at hc
    have hccode : cg1.code = cg.code := hc.1
    have hclvl : cg1.indent_level = cg.indent_level := hc.2.1
    simp only [CommandNode.generate_code, h]
    set L1 := cg1.indent ++ "while ( " ++ cc ++ " ) \x7b" with hL1
    set cg2 := cg1.emit L1 with hcg2
    set cg3 : CodeGenerator := { cg2 with indent_level := cg2.indent_level + 1 } with hcg3
    obtain ⟨ls2, hcode2, hok2⟩ := CommandNode.generate_code_lines body cg3 hwf.2
    set cg4 := body.generate_code cg3 with hcg4
    set cg5 : CodeGenerator := { cg4 with indent_level := cg4.indent_level - 1 } with hcg5
    set L2 := cg5.indent ++ "\x7d" with hL2
    have hlvl3 : cg3.indent_level = cg.indent_level + 1 := by
      rw [hcg3]
      simp only [hcg2, CodeGenerator.emit_indent_level, hclvl]
    have hlvl4 : cg4.indent_level = cg.indent_level + 1 := by
      rw [hcg4, CommandNode.generate_code_indent body cg3, hlvl3]
    have hlvl5 : cg5.indent_level = cg.indent_level := by
      rw [hcg5]
      simp only [hlvl4]
      omega
    refine ⟨L1 :: (ls2 ++ [L2]), ?_, ?_⟩
    · have hcode4 : cg4.code = cg.code ++ [L1] ++ ls2 := by
        rw [hcg4, hcode2, hcg3]
        simp only [hcg2, CodeGenerator.emit_code, hccode]
      simp only [CodeGenerator.emit_code, hcg5]
      rw [hcode4]
      simp [List.append_assoc]
    · apply linesOk_block
      · rw [hL1]
        have hg := goodLine_of_level_eq cg.indent_level cg1 hclvl
          ("while ( " ++ (cc ++ " ) \x7b")) (by simp [String.ext_iff]) (by simp)
        simpa [String.append_assoc] using hg
      · rw [hL2]
        exact goodLine_of_level_eq cg.indent_level cg5 hlvl5 "\x7d" (by decide) (by decide)
      · intro l hlm
        obtain ⟨k, hk, hg⟩ := hok2.2.1 l hlm
        rw [hlvl3] at hk
        exact ⟨k, hk, hg⟩
  | composite cs =>
    simp only [CommandNode.wfb] at hwf
    simp only [CommandNode.generate_code]
    set L1 := cg.indent ++ "\x7b" with hL1
    set cg1 := cg.emit L1 with hcg1
    set cg2 : CodeGenerator := { cg1 with indent_level := cg1.indent_level + 1 } with hcg2
    obtain ⟨ls2, hcode2, hmem2⟩ := CommandNode.generate_list_lines cs cg2 hwf
    set cg3 := CommandNode.generate_list cs cg2 with hcg3
    set cg4 : CodeGenerator := { cg3 with indent_level := cg3.indent_level - 1 } with hcg4
    set L2 := cg4.indent ++ "\x7d" with hL2
    have hlvl2 : cg2.indent_level = cg.indent_level + 1 := by
      rw [hcg2]
      simp only [hcg1, CodeGenerator.emit_indent_level]
    have hlvl3 : cg3.indent_level = cg.indent_level + 1 := by
      rw [hcg3, CommandNode.generate_list_indent cs cg2, hlvl2]
    have hlvl4 : cg4.indent_level = cg.indent_level := by
      rw [hcg4]
      simp only [hlvl3]
      omega
    refine ⟨L1 :: (ls2 ++ [L2]), ?_, ?_⟩
    · have hcode3 : cg3.code = cg.code ++ [L1] ++ ls2 := by
        rw [hcg3, hcode2, hcg2]
        simp only [hcg1, CodeGenerator.emit_code]
      simp only [CodeGenerator.emit_code, hcg4]
      rw [hcode3]
      simp [List.append_assoc]
    · apply linesOk_block
      · rw [hL1]
        exact goodLine_of_level_eq cg.indent_level cg rfl "\x7b" (by decide) (by decide)
      · rw [hL2]
        exact goodLine_of_level_eq cg.indent_level cg4 hlvl4 "\x7d" (by decide) (by decide)
      · intro l hlm
        obtain ⟨k, hk, hg⟩ := hmem2 l hlm
        rw [hlvl2] at hk
        exact ⟨k, hk, hg⟩

theorem CommandNode.generate_list_lines (cs : List CommandNode) (cg : CodeGenerator)
    (hwf : CommandNode.wfbList cs = true) :
    ∃ ls, (CommandNode.generate_list cs cg).code = cg.code ++ ls ∧
      (∀ l ∈ ls, ∃ k : Int, cg.indent_level ≤ k ∧ goodLine k l) := by
  cases cs with
  | nil => exact ⟨[], by simp [CommandNode.generate_list], by simp⟩
  | cons c cs' =>
    simp only [CommandNode.wfbList, Bool.and_eq_true] at hwf
    obtain ⟨ls1, hcode1, hok1⟩ := CommandNode.generate_code_lines c cg hwf.1
    obtain ⟨ls2, hcode2, hmem2⟩ :=
      CommandNode.generate_list_lines cs' (c.generate_code cg) hwf.2
    refine ⟨ls1 ++ ls2, ?_, ?_⟩
    · simp only [CommandNode.generate_list]
      rw [hcode2, hcode1, List.append_assoc]
    · intro l hl
      rcases List.mem_append.mp hl with hin1 | hin2
      · exact hok1.2.1 l hin1
      · obtain ⟨k, hk, hg⟩ := hmem2 l hin2
        rw [CommandNode.generate_code_indent c cg] at hk
        exact ⟨k, hk, hg⟩

end

/-- C10: the generator's `indent_level` starts at 1; `generate_code` of
every AST node leaves `indent_level` equal to its value before the call
(`If`, `While` and `Composite` restore the level they incremented); and
for every well-formed command the emitted lines all sit at an unambiguous
indentation depth no shallower than the current level (so, starting from
the initial level 1, the level at every emission is at least 1), while the
first and last lines a command contributes sit at exactly the current
level — hence every top-level statement line is indented by exactly one
4-space unit. -/
theorem indent_level_invariant :
    CodeGenerator.init.indent_level = 1 ∧
    (∀ (c : CommandNode) (cg : CodeGenerator),
      (c.generate_code cg).indent_level = cg.indent_level) ∧
    (∀ (c : CommandNode) (cg : CodeGenerator), c.wfb = true →
      ∃ ls, (c.generate_code cg).code = cg.code ++ ls ∧ linesOk cg ls) :=
  ⟨rfl, CommandNode.generate_code_indent, CommandNode.generate_code_lines⟩

/-- C10, witness: the well-formed command `I a=0 P b`, generated from the
fresh generator (level 1), contributes lines satisfying the indentation
discipline. -/
theorem indent_level_invariant_witness :
    (CommandNode.ifC { left := 'a', operator := "==", right := ValueNode.num '0' }
      (CommandNode.printC (ValueNode.var 'b'))).wfb = true ∧
    ∃ ls, ((CommandNode.ifC { left := 'a', operator := "==", right := ValueNode.num '0' }
        (CommandNode.printC (ValueNode.var 'b'))).generate_code CodeGenerator.init).code =
      CodeGenerator.init.code ++ ls ∧ linesOk CodeGenerator.init ls :=
  ⟨by decide, indent_level_invariant.2.2 _ CodeGenerator.init (by decide)⟩
